import Mathlib

/-!
Verification development for the Vietnamese multi-agent RAG chatbot service
(`RAG_Core`).  The Python sources are embedded shallowly: pure functions become
Lean functions, external services (embedding model, cross-encoder reranker,
LLM, vector store) become explicit oracles, and fallible code returns
`Except`/`Option`.  Scores are modelled as exact rationals (`ℚ`); Python
strings are modelled as `String`, with helper functions on `List Char`
mirroring Python's `str.split()`, `str.strip()`, slicing and substring tests.
-/

namespace VTC

/-! ## Python-style string helpers -/

/-- Python `len(s)` (code points). -/
def pyLen (s : String) : ℕ := s.data.length

/-- Python slicing `s[:n]` (by code points). -/
def pyTake (n : ℕ) (s : String) : String := ⟨s.data.take n⟩

/-- Drop leading whitespace from a character list. -/
def dropWS (l : List Char) : List Char := l.dropWhile Char.isWhitespace

/-- Strip leading and trailing whitespace (Python `str.strip()`), on chars. -/
def stripChars (l : List Char) : List Char := ((dropWS l).reverse.dropWhile Char.isWhitespace).reverse

/-- Python `s.strip()`. -/
def pyStrip (s : String) : String := ⟨stripChars s.data⟩

/-- Auxiliary for Python `str.split()`: splits on runs of whitespace; `acc`
holds the current word reversed. -/
def wordsAux : List Char → List Char → List (List Char)
  | [], acc => if acc.isEmpty then [] else [acc.reverse]
  | c :: cs, acc =>
    if c.isWhitespace then
      (if acc.isEmpty then wordsAux cs [] else acc.reverse :: wordsAux cs [])
    else wordsAux cs (c :: acc)

/-- Python `s.split()` on characters: maximal whitespace-free words. -/
def pySplitChars (l : List Char) : List (List Char) := wordsAux l []

/-- Python `s.split()`. -/
def pySplit (s : String) : List String := (pySplitChars s.data).map fun w => ⟨w⟩

/-- Does `pat` occur as a prefix of `hay`? -/
def chStarts : List Char → List Char → Bool
  | [], _ => true
  | _ :: _, [] => false
  | p :: ps, h :: hs => p = h && chStarts ps hs

/-- Does `pat` occur as a contiguous sublist of `hay`?  Models Python
`pat in hay` on strings. -/
def chHas : List Char → List Char → Bool
  | [], pat => pat.isEmpty
  | h :: hs, pat => chStarts pat (h :: hs) || chHas hs pat

/-- Python `pat in s`. -/
def hasSub (s pat : String) : Bool := chHas s.data pat.data

/-- Python `s.upper()` (ASCII case folding; the uppercase test is only used
to spot the ASCII sentinel `NOT_FOUND`). -/
def pyUpper (s : String) : String := ⟨s.data.map Char.toUpper⟩

/-- Python `s.lower()` (ASCII case folding; the supervisor keyword lists are
already lowercase). -/
def pyLower (s : String) : String := ⟨s.data.map Char.toLower⟩

deriving instance DecidableEq for Except

/-- Python `s[:n] if len(s) > n else s` pattern used for passage truncation. -/
def truncAt (n : ℕ) (s : String) : String := if n < pyLen s then pyTake n s else s

/-! ## Configuration (`RAG_Core/config/settings.py`), default values -/

/-! Rational constants are written with `mkRat` (kernel-evaluable); decimal
values are noted in comments.  `qMul`/`qAdd` are rational multiplication and
addition written through `mkRat`; they are proved equal to `*` and `+` below
and exist only so that closed theorems evaluate by `decide`. -/

/-- Rational multiplication via `mkRat` (provably `a * b`). -/
def qMul (a b : ℚ) : ℚ := mkRat (a.num * b.num) (a.den * b.den)

/-- Rational addition via `mkRat` (provably `a + b`). -/
def qAdd (a b : ℚ) : ℚ := mkRat (a.num * b.den + b.num * a.den) (a.den * b.den)

def SIMILARITY_THRESHOLD : ℚ := mkRat 1 5
def TOP_K : ℕ := 15
def FAQ_VECTOR_THRESHOLD : ℚ := mkRat 1 2
def FAQ_TOP_K : ℕ := 10
def FAQ_RERANK_THRESHOLD : ℚ := mkRat 3 5
def FAQ_QUESTION_WEIGHT : ℚ := mkRat 1 2
def FAQ_QA_WEIGHT : ℚ := mkRat 3 10
def FAQ_ANSWER_WEIGHT : ℚ := mkRat 1 5
def FAQ_CONSISTENCY_BONUS : ℚ := mkRat 11 10
def FAQ_CONSISTENCY_THRESHOLD : ℚ := mkRat 3 5
def DOCUMENT_RERANK_THRESHOLD : ℚ := mkRat 3 5

/-- `FAQAgent.__init__`: `self.direct_answer_threshold = 0.75`. -/
def directAnswerThreshold : ℚ := mkRat 3 4

/-- `FAQAgent.__init__`: `self.force_similarity_threshold = 0.85`. -/
def forceSimilarityThreshold : ℚ := mkRat 17 20

/-- `GraderAgent.__init__`: `self.reranking_threshold = 0.6`. -/
def graderRerankingThreshold : ℚ := mkRat 3 5

/-- Floor of a rational, via flooring integer division. -/
def ratFloorZ (q : ℚ) : ℤ := q.num.fdiv q.den

/-- Round to the nearest integer, ties to even (Python `round`). -/
def roundHalfEvenZ (x : ℚ) : ℤ :=
  let f := ratFloorZ x
  let twice := qMul (mkRat 2 1) x
  let mid : ℚ := mkRat (2 * f + 1) 1
  if twice < mid then f
  else if mid < twice then f + 1
  else if f % 2 = 0 then f else f + 1

/-- Python `round(x, 4)`; used only in display fields of references, never in
threshold comparisons. -/
def round4 (q : ℚ) : ℚ := mkRat (roundHalfEvenZ (qMul q (mkRat 10000 1))) 10000

/-! ## Vector dimension reconciliation
(`tools/vector_search.py` and `database/milvus_client.py`) -/

/-- `vector_search.pad_vector_to_dimension` (1-D case): truncate when the
current dimension is at least the target, otherwise zero-pad on the right. -/
def pad_vector_to_dimension (v : List ℚ) (target_dim : ℕ) : List ℚ :=
  if target_dim ≤ v.length then v.take target_dim
  else v ++ List.replicate (target_dim - v.length) 0

/-- `MilvusClient._adjust_vector_dimension` (single-vector case). -/
def adjust_vector_dimension (v : List ℚ) (target_dim : ℕ) : List ℚ :=
  if v.length < target_dim then v ++ List.replicate (target_dim - v.length) 0
  else if target_dim < v.length then v.take target_dim
  else v

/-- `MilvusClient._validate_vector_dimension` with `auto_fix=True`: when the
collection dimension is unknown (0) the vector is passed through; on mismatch
it is adjusted. -/
def validate_vector_dimension (v : List ℚ) (expected_dim : ℕ) : List ℚ :=
  if expected_dim = 0 then v
  else if v.length ≠ expected_dim then adjust_vector_dimension v expected_dim
  else v

/-- `vector_search.safe_encode_and_fix_dimension`: encode the query (oracle
`encode`) and fix the dimension against the collection's declared dimension. -/
def safe_encode_and_fix_dimension (encode : String → List ℚ) (expected_dim : ℕ)
    (query : String) : List ℚ :=
  let v := encode query
  if 0 < expected_dim ∧ v.length ≠ expected_dim then pad_vector_to_dimension v expected_dim
  else v

/-! ## Data model -/

/-- One conversation turn (`ChatMessage` / history dict). -/
structure Turn where
  role : String
  content : String
deriving DecidableEq

/-- A document candidate from vector search (`milvus_client.search_documents`
hit).  `rerank_score` is `none` until the reranker adds it (Python dict key
absent); `Doc.getRerank` models `doc.get("rerank_score", 0)`. -/
structure Doc where
  document_id : String
  description : String
  similarity_score : ℚ
  rerank_score : Option ℚ
deriving DecidableEq

def Doc.getRerank (d : Doc) : ℚ := d.rerank_score.getD 0

/-- A FAQ candidate from vector search (`milvus_client.search_faq` hit). -/
structure Faq where
  faq_id : String
  question : String
  answer : String
  similarity_score : ℚ
deriving DecidableEq

/-- A FAQ candidate after cross-encoder reranking (`rerank_faq` output):
the original entry plus the fused `rerank_score` and the per-variant
`rerank_details` scores. -/
structure RankedFaq extends Faq where
  rerank_score : ℚ
  score_question_only : ℚ
  score_question_answer : ℚ
  score_answer_only : ℚ
deriving DecidableEq

/-- A reference returned to the caller.  Optional fields model dict keys that
are present only on some paths. -/
structure Reference where
  document_id : String
  type : String
  description : Option String
  ref_rerank_score : Option ℚ
  ref_similarity_score : Option ℚ
deriving DecidableEq

/-- The cross-encoder scoring oracle: one real score per (query, passage)
pair.  `none` at the call site models an unavailable reranker model
(`reranker_model is None`) or a `predict` failure. -/
def CE : Type := String → String → ℚ

/-- The LLM oracle (`llm_model.invoke`); `none` at a call site models the
surrounding `try` block observing an exception. -/
def LLM : Type := String → String

/-! ## Stable sorting by a rational key (Python `list.sort(key=..., reverse=True)`)

Python's sort is stable; `List.insertionSort` with the non-strict
"key is at least" relation is also stable in the same way (equal keys keep
input order), so the two agree observationally. -/

/-- `a` sorts no later than `b` when sorting by `key` descending. -/
def keyGE {α : Type} (key : α → ℚ) (a b : α) : Prop := key b ≤ key a

instance {α : Type} (key : α → ℚ) : DecidableRel (keyGE key) :=
  fun a b => inferInstanceAs (Decidable (key b ≤ key a))

instance {α : Type} (key : α → ℚ) : IsTotal α (keyGE key) :=
  ⟨fun a b => (le_total (key b) (key a)).imp id id⟩

instance {α : Type} (key : α → ℚ) : IsTrans α (keyGE key) :=
  ⟨fun _ _ _ h1 h2 => le_trans h2 h1⟩

/-- Strictly-descending companion of `keyGE`, used only in proofs. -/
def keyGT {α : Type} (key : α → ℚ) (a b : α) : Prop := key b < key a

instance {α : Type} (key : α → ℚ) : IsAntisymm α (keyGT key) :=
  ⟨fun _ _ h1 h2 => absurd (lt_trans h1 h2) (lt_irrefl _)⟩

/-- Stable descending sort by a rational key: the model of Python
`lst.sort(key=lambda x: x[k], reverse=True)`. -/
def sortByKeyDesc {α : Type} (key : α → ℚ) (l : List α) : List α :=
  List.insertionSort (keyGE key) l

/-! ## Cross-encoder reranking (`tools/vector_search.py`) -/

/-- Does the Python rendering `str(list_of_doc_dicts)` contain `"error"`?
The dict keys and numeric values never contain it, so only the
`document_id` / `description` string values matter. -/
def docsStrHasError (docs : List Doc) : Bool :=
  docs.any fun d => hasSub d.document_id "error" || hasSub d.description "error"

/-- Likewise for a rendered list of FAQ dicts. -/
def faqsStrHasError (faqs : List Faq) : Bool :=
  faqs.any fun fa =>
    hasSub fa.faq_id "error" || hasSub fa.question "error" || hasSub fa.answer "error"

/-- `vector_search.rerank_documents`: score each (query, passage) pair with
the cross-encoder (passage truncated to 500 chars, `description or ''`),
attach `rerank_score`, and sort descending.  `.error` models the
`RuntimeError` raised when the reranker is unavailable or `predict` fails. -/
def rerank_documents (ce : Option CE) (query : String) (documents : List Doc) :
    Except Unit (List Doc) :=
  if documents.isEmpty then .ok []
  else
    match ce with
    | none => .error ()
    | some f =>
      let scored := documents.map fun d =>
        { d with rerank_score := some (f query (truncAt 500 d.description)) }
      .ok (sortByKeyDesc Doc.getRerank scored)

/-- The weighted sum of the three variant scores, in the weight-dict order
`question_only, question_answer, answer_only` (weights 0.5 / 0.3 / 0.2). -/
def fuseWeighted (sq sqa sa : ℚ) : ℚ :=
  qAdd (qAdd (qMul sq FAQ_QUESTION_WEIGHT) (qMul sqa FAQ_QA_WEIGHT))
    (qMul sa FAQ_ANSWER_WEIGHT)

/-- The fused FAQ score: weighted sum, multiplied by the consistency bonus
exactly when every variant score strictly exceeds the consistency floor. -/
def fuseFinal (sq sqa sa : ℚ) : ℚ :=
  let base := fuseWeighted sq sqa sa
  if FAQ_CONSISTENCY_THRESHOLD < sq ∧ FAQ_CONSISTENCY_THRESHOLD < sqa ∧
      FAQ_CONSISTENCY_THRESHOLD < sa then
    qMul base FAQ_CONSISTENCY_BONUS
  else base

/-- Score one FAQ entry's three variants (`rerank_faq` pair construction):
query vs stripped question, query vs question+answer truncated to 500, query
vs answer truncated to 400. -/
def scoreFaqEntry (f : CE) (query : String) (fa : Faq) : RankedFaq :=
  let q := pyStrip fa.question
  let a := pyStrip fa.answer
  let sq := f query q
  let sqa := f query (truncAt 500 (q ++ " " ++ a))
  let sa := f query (truncAt 400 a)
  { fa with
    rerank_score := fuseFinal sq sqa sa
    score_question_only := sq
    score_question_answer := sqa
    score_answer_only := sa }

/-- FAQ entries whose stripped question is non-empty (entries with an empty
question produce no pairs and are dropped by `rerank_faq`). -/
def faqKeep (fa : Faq) : Bool := ¬ (pyStrip fa.question).isEmpty

/-- The scored (unsorted) list inside `rerank_faq`. -/
def scoredFaqs (f : CE) (query : String) (faq_results : List Faq) : List RankedFaq :=
  (faq_results.filter faqKeep).map (scoreFaqEntry f query)

/-- `vector_search.rerank_faq`: multi-variant cross-encoder scoring, weighted
fusion with consistency bonus, stable descending sort on the fused score.
`.error` models the `RuntimeError` raised when the reranker is unavailable or
scoring fails. -/
def rerank_faq (ce : Option CE) (query : String) (faq_results : List Faq) :
    Except Unit (List RankedFaq) :=
  if faq_results.isEmpty then .ok []
  else
    match ce with
    | none => .error ()
    | some f =>
      let scored := scoredFaqs f query faq_results
      if scored.isEmpty then .ok []
      else .ok (sortByKeyDesc RankedFaq.rerank_score scored)

/-! ## Grader agent (`agents/grader_agent.py`) -/

structure GraderResult where
  status : String
  qualified_documents : List Doc
  references : List Reference
  next_agent : String
deriving DecidableEq

/-- `GraderAgent._fallback_grading`: similarity-only grading used when the
rerank output is empty or its rendering contains `"error"`. -/
def fallback_grading (documents : List Doc) : GraderResult :=
  let qualified := documents.filter fun d =>
    decide (SIMILARITY_THRESHOLD ≤ d.similarity_score)
  if qualified.isEmpty then ⟨"INSUFFICIENT", [], [], "NOT_ENOUGH_INFO"⟩
  else
    ⟨"SUFFICIENT", qualified,
      qualified.map (fun d =>
        ⟨d.document_id, "DOCUMENT", none, none, some (round4 d.similarity_score)⟩),
      "GENERATOR"⟩

/-- `GraderAgent.process`: rerank, then keep candidates meeting BOTH
`rerank_score ≥ 0.6` and `similarity_score ≥ 0.2`.  A raised rerank error is
caught by the outer `except` and produces the ERROR result; a rendered
`"error"` in the rerank output triggers `_fallback_grading`. -/
def graderProcess (ce : Option CE) (question : String) (documents : List Doc) :
    GraderResult :=
  if documents.isEmpty then ⟨"INSUFFICIENT", [], [], "NOT_ENOUGH_INFO"⟩
  else
    match rerank_documents ce question documents with
    | .error _ => ⟨"ERROR", [], [], "NOT_ENOUGH_INFO"⟩
    | .ok reranked =>
      if reranked.isEmpty || docsStrHasError reranked then fallback_grading documents
      else
        let qualified := reranked.filter fun d =>
          decide (graderRerankingThreshold ≤ d.getRerank) &&
            decide (SIMILARITY_THRESHOLD ≤ d.similarity_score)
        if qualified.isEmpty then ⟨"INSUFFICIENT", [], [], "NOT_ENOUGH_INFO"⟩
        else
          ⟨"SUFFICIENT", qualified,
            qualified.map (fun d =>
              ⟨d.document_id, "DOCUMENT", none, some (round4 d.getRerank),
                some (round4 d.similarity_score)⟩),
            "GENERATOR"⟩

/-! ## FAQ agent (`agents/faq_agent.py`, the "no fallback" version) -/

structure FaqResult where
  status : String
  answer : String
  mode : Option String
  references : List Reference
  next_agent : String
deriving DecidableEq

/-- `FAQAgent._route_to_retriever`. -/
def routeToRetriever : FaqResult := ⟨"NOT_FOUND", "", none, [], "RETRIEVER"⟩

/-- FAQ entries surviving the agent's vector threshold (0.5). -/
def faqVectorFilter (fa : Faq) : Bool := decide (FAQ_VECTOR_THRESHOLD ≤ fa.similarity_score)

/-- The prompt `FAQAgent.standard_prompt.format(...)` (template text
abbreviated; no claim depends on its wording, only on which oracle inputs it
carries). -/
def faqLlmPrompt (question : String) (faqs : List RankedFaq) : String :=
  "FAQ:" ++ question ++ String.join (faqs.map fun fa => "|" ++ fa.question ++ ";" ++ fa.answer)

/-- The single reference attached to a FAQ answer. -/
def faqReference (best : RankedFaq) : Reference :=
  ⟨best.faq_id, "FAQ", some (pyTake 500 best.question),
    some (round4 best.rerank_score), some (round4 best.similarity_score)⟩

/-- `FAQAgent.process` (question is the only input used; the `is_followup`
and `context` parameters are accepted and ignored, as in the source).
`searchRes` is the outcome of `search_faq` (`.error` = the search raised).
The returned `.error` models the `RuntimeError` the agent propagates. -/
def faqProcess (searchRes : Except Unit (List Faq)) (ce : Option CE)
    (llm : Option LLM) (question : String) (_is_followup : Bool) (_context : String) :
    Except Unit FaqResult :=
  match searchRes with
  | .error _ => .error ()
  | .ok faq_results =>
    if faq_results.isEmpty || faqsStrHasError faq_results then .ok routeToRetriever
    else
      let filtered := faq_results.filter faqVectorFilter
      if filtered.isEmpty then .ok routeToRetriever
      else
        match rerank_faq ce question filtered with
        | .error _ => .error ()
        | .ok reranked =>
          match reranked with
          | [] => .error ()
          | best :: _ =>
            let rerank_score := best.rerank_score
            let similarity_score := best.similarity_score
            if ¬ (forceSimilarityThreshold ≤ similarity_score) then .ok routeToRetriever
            else if directAnswerThreshold ≤ rerank_score ∨
                forceSimilarityThreshold ≤ similarity_score then
              .ok ⟨"SUCCESS", best.answer, some "direct", [faqReference best], "end"⟩
            else
              match llm with
              | none => .error ()
              | some g =>
                let response := g (faqLlmPrompt question (reranked.take 3))
                if hasSub (pyUpper response) "NOT_FOUND" then .ok routeToRetriever
                else if response.isEmpty || pyLen (pyStrip response) < 10 then
                  .ok routeToRetriever
                else .ok ⟨"SUCCESS", response, some "llm", [faqReference best], "end"⟩

/-! ## Retriever agent (`agents/retriever_agent.py`) -/

structure RetrieverResult where
  status : String
  documents : List Doc
  next_agent : String
deriving DecidableEq

/-- `RetrieverAgent.process`: vector-search the document collection, filter
by the similarity threshold (strict `>` in this agent); if nothing passes,
forward the whole result set to the grader. -/
def retrieverProcess (searchRes : Except Unit (List Doc)) : RetrieverResult :=
  match searchRes with
  | .error _ => ⟨"ERROR", [], "REPORTER"⟩
  | .ok search_results =>
    if search_results.isEmpty || docsStrHasError search_results then
      ⟨"ERROR", [], "NOT_ENOUGH_INFO"⟩
    else
      let relevant := search_results.filter fun d =>
        decide (SIMILARITY_THRESHOLD < d.similarity_score)
      if relevant.isEmpty then ⟨"NOT_FOUND", search_results, "GRADER"⟩
      else ⟨"SUCCESS", relevant, "GRADER"⟩

/-! ## Generator agent (`agents/generator_agent.py`) -/

structure AgentResult where
  status : String
  answer : String
  references : List Reference
  next_agent : String
deriving DecidableEq

/-- `GeneratorAgent._deduplicate_references`: keep the first occurrence of
each truthy `document_id`, drop later duplicates and falsy ids. -/
def dedupRefsAux (seen : List String) : List Reference → List Reference
  | [] => []
  | r :: rs =>
    if r.document_id ≠ "" ∧ r.document_id ∉ seen then
      r :: dedupRefsAux (r.document_id :: seen) rs
    else dedupRefsAux seen rs

def deduplicate_references (references : List Reference) : List Reference :=
  dedupRefsAux [] references

/-- The generator's prompt (standard or follow-up branch; template text
abbreviated, carrying the oracle-relevant inputs). -/
def generatorPrompt (question : String) (documents : List Doc) (history : List Turn)
    (is_followup : Bool) (context_summary : String) : String :=
  (if is_followup then "FOLLOWUP:" ++ context_summary else "STANDARD:") ++ question ++
    String.join ((documents.take 5).map fun d => "|" ++ d.description) ++
    String.join (history.map fun t => "|" ++ t.role ++ ":" ++ t.content)

/-- The fixed reply substituted when the LLM answer is empty or too short. -/
def generatorShortAnswerFallback : String :=
  "Tôi đã tìm thấy thông tin liên quan nhưng gặp khó khăn trong việc tạo câu trả lời. Bạn có thể diễn đạt câu hỏi theo cách khác được không?"

/-- `GeneratorAgent.process`: with no documents, a fixed ERROR apology;
otherwise invoke the LLM and return the (deduplicated) references.  `llm =
none` models the `except` branch. -/
def generatorProcess (llm : Option LLM) (question : String) (documents : List Doc)
    (references : List Reference) (history : List Turn) (is_followup : Bool)
    (context_summary : String) : AgentResult :=
  if documents.isEmpty then
    ⟨"ERROR", "Không có tài liệu để tạo câu trả lời", [], "end"⟩
  else
    match llm with
    | none => ⟨"ERROR", "Lỗi tạo câu trả lời: exception", [], "end"⟩
    | some g =>
      let answer0 := g (generatorPrompt question documents history is_followup context_summary)
      let answer :=
        if answer0.isEmpty || pyLen (pyStrip answer0) < 10 then generatorShortAnswerFallback
        else answer0
      ⟨"SUCCESS", answer, deduplicate_references references, "end"⟩

/-! ## Terminal responders (`not_enough_info` / `chatter` / `reporter` / `other`) -/

/-- `NotEnoughInfoAgent.process`: the LLM answer is used as-is with a single
GENERAL_KNOWLEDGE reference stub; exceptions yield ERROR with no references. -/
def notEnoughInfoProcess (llm : Option LLM) (question : String) : AgentResult :=
  match llm with
  | none => ⟨"ERROR", "Xin lỗi, hệ thống gặp lỗi.", [], "end"⟩
  | some g =>
    ⟨"SUCCESS", g ("NEI:" ++ question),
      [⟨"llm_knowledge", "GENERAL_KNOWLEDGE", none, none, none⟩], "end"⟩

/-- `ChatterAgent.process`: LLM reply with a too-short fallback and a single
SUPPORT reference stub; any exception in the body (including the
`"\n".join(history)` TypeError on dict history) yields ERROR, no references. -/
def chatterProcess (llm : Option LLM) (question : String) : AgentResult :=
  match llm with
  | none => ⟨"ERROR", "Tôi hiểu bạn đang không hài lòng.", [], "end"⟩
  | some g =>
    let answer0 := g ("CHATTER:" ++ question)
    let answer :=
      if answer0.isEmpty || pyLen (pyStrip answer0) < 10 then
        "Tôi rất hiểu cảm xúc của bạn và chân thành xin lỗi về những bất tiện này."
      else answer0
    ⟨"SUCCESS", answer, [⟨"support_contact", "SUPPORT", none, none, none⟩], "end"⟩

/-- `ReporterAgent.process`: a fixed status answer (depending on the database
probe) with a single SYSTEM reference stub. -/
def reporterProcess (dbConnected : Bool) : AgentResult :=
  let answer :=
    if dbConnected then "Hệ thống đang hoạt động bình thường."
    else "THÔNG BÁO BẢO TRÌ HỆ THỐNG"
  ⟨"SUCCESS", answer, [⟨"system_status", "SYSTEM", none, none, none⟩], "end"⟩

/-- `OtherAgent.process`: LLM reply with a too-short fallback; references
always empty. -/
def otherProcess (llm : Option LLM) (question : String) : AgentResult :=
  match llm with
  | none => ⟨"ERROR", "Đây không phải là tác vụ của tôi.", [], "end"⟩
  | some g =>
    let answer0 := g ("OTHER:" ++ question)
    let answer :=
      if answer0.isEmpty || pyLen (pyStrip answer0) < 10 then "Cảm ơn bạn đã liên hệ!"
      else answer0
    ⟨"SUCCESS", answer, [], "end"⟩

/-! ## Context processor (`utils/context_processor.py`) -/

structure ContextInfo where
  original_question : String
  contextualized_question : String
  is_followup : Bool
  relevant_context : String
deriving DecidableEq

/-- `ContextProcessor._extract_relevant_context`: the most recent assistant
message, truncated to 500 chars. -/
def extractRelevantContext (history : List Turn) : String :=
  match history.reverse.find? (fun t => t.role = "assistant") with
  | some t => pyTake 500 t.content
  | none => ""

/-- The context-analysis prompt (template abbreviated). -/
def contextPrompt (history : List Turn) (current_question : String) : String :=
  "CTX:" ++ current_question ++
    String.join (history.map fun t => "|" ++ t.role ++ ":" ++ t.content)

/-- `ContextProcessor.extract_context_from_history`.  `isFu` abstracts
`_is_followup_question` (regex/NFKC pattern tests over an external regex
engine) and `manualCtx` abstracts `_manual_contextualize` (the regex-driven
rule-based rewriter); theorems quantify over both.  `llm = none` models the
method's `except` branch (an exception while rewriting). -/
def extract_context_from_history (llm : Option LLM) (isFu : String → Bool)
    (manualCtx : String → List Turn → String) (history : List Turn)
    (current_question : String) : ContextInfo :=
  if history.isEmpty then ⟨current_question, current_question, false, ""⟩
  else if ¬ isFu current_question then ⟨current_question, current_question, false, ""⟩
  else
    match llm with
    | none => ⟨current_question, current_question, false, ""⟩
    | some g =>
      let contextualized := pyStrip (g (contextPrompt history current_question))
      let contextualized2 :=
        if contextualized.isEmpty || pyLen contextualized < 5 then
          manualCtx current_question history
        else contextualized
      ⟨current_question, contextualized2, true, extractRelevantContext history⟩

/-! ## Supervisor agent (`agents/supervisor.py`) -/

structure SupervisorResult where
  agent : String
  contextualized_question : String
  context_summary : String
  is_followup : Bool
deriving DecidableEq

/-- The sentinel marking a failed clarification rewrite. -/
def clarifySentinel : String := "[cần làm rõ]"

/-- `SupervisorAgent._fallback_classify`: keyword-based routing
(plain substring tests, no regex). -/
def fallback_classify (question : String) : String :=
  let ql := pyLower question
  let chatterKeywords := ["tệ", "kém", "tồi", "không hài lòng", "giận",
    "phản đối", "khiếu nại", "thất vọng", "tức giận"]
  let reporterKeywords := ["lỗi", "không hoạt động", "bị lỗi", "không kết nối",
    "không truy cập được", "hỏng", "không phản hồi"]
  let faqKeywords := ["là gì", "như thế nào", "sao", "tại sao", "có phải",
    "giờ làm việc", "liên hệ", "hướng dẫn", "cách", "thế nào"]
  if chatterKeywords.any (fun k => hasSub ql k) then "CHATTER"
  else if reporterKeywords.any (fun k => hasSub ql k) then "REPORTER"
  else if faqKeywords.any (fun k => hasSub ql k) then "FAQ"
  else "FAQ"

/-- The classification prompt (template abbreviated). -/
def classificationPrompt (original contextualized : String) (history : List Turn)
    (is_followup : Bool) (relevant_context : String) : String :=
  "CLS:" ++ original ++ "/" ++ contextualized ++ "/" ++
    (if is_followup then "Có" else "Không") ++ "/" ++ pyTake 300 relevant_context ++
    String.join (history.map fun t => "|" ++ t.role ++ ":" ++ pyTake 200 t.content)

/-- `SupervisorAgent.classify_request`.  `parse` abstracts
`_parse_classification_response` (regex + `json.loads`), returning the
`agent` and `context_summary` fields extracted from the LLM reply (it never
raises: every failure path returns a default dict).  An unavailable LLM
(`llm = none`) raises inside the method, so the outer `except` returns the
keyword-fallback classification on the original question. -/
def classify_request (dbConnected : Bool) (llm : Option LLM) (isFu : String → Bool)
    (manualCtx : String → List Turn → String) (parse : String → String × String)
    (question : String) (history : List Turn) : SupervisorResult :=
  if ¬ dbConnected then ⟨"REPORTER", question, "Hệ thống mất kết nối", false⟩
  else
    let ci := extract_context_from_history llm isFu manualCtx history question
    let cq := if hasSub ci.contextualized_question clarifySentinel then question
      else ci.contextualized_question
    let fu := if hasSub ci.contextualized_question clarifySentinel then false
      else ci.is_followup
    let rc := if hasSub ci.contextualized_question clarifySentinel then ""
      else ci.relevant_context
    match llm with
    | none => ⟨fallback_classify question, question, "", false⟩
    | some g =>
      let response := g (classificationPrompt question cq history fu rc)
      let parsed := parse response
      let agentChoice := pyUpper parsed.1
      let agent :=
        if agentChoice ∈ ["FAQ", "CHATTER", "REPORTER", "OTHER"] then agentChoice
        else fallback_classify cq
      ⟨agent, cq, parsed.2, fu⟩

/-! ## Workflow (`workflow/rag_workflow.py`) -/

/-- The mutable per-request state (`ChatbotState` TypedDict). -/
structure ChatbotState where
  question : String
  original_question : String
  history : List Turn
  is_followup : Bool
  context_summary : String
  relevant_context : String
  current_agent : String
  documents : List Doc
  qualified_documents : List Doc
  references : List Reference
  answer : String
  status : String
  iteration_count : ℕ
  supervisor_classification : Option SupervisorResult
  faq_result : Option FaqResult
  retriever_result : Option RetrieverResult
  parallel_mode : Bool
deriving DecidableEq

/-- `RAGWorkflow._create_initial_state`. -/
def createInitialState (question : String) (history : List Turn) : ChatbotState :=
  { question := question
    original_question := question
    history := history
    is_followup := false
    context_summary := ""
    relevant_context := ""
    current_agent := "parallel_execution"
    documents := []
    qualified_documents := []
    references := []
    answer := ""
    status := ""
    iteration_count := 0
    supervisor_classification := none
    faq_result := none
    retriever_result := none
    parallel_mode := false }

/-- All external outcomes a single request can observe, gathered in one
record: oracles for the models and the vector store, plus timeout flags for
the three fan-out branches. -/
structure Oracles where
  ce : Option CE
  llm : Option LLM
  dbConnected : Bool
  faqSearch : Except Unit (List Faq)
  docSearch : Except Unit (List Doc)
  isFu : String → Bool
  manualCtx : String → List Turn → String
  parse : String → String × String
  supTimeout : Bool
  faqTimeout : Bool
  retTimeout : Bool

/-- `RAGWorkflow._safe_execute_faq`: calls `FAQAgent.process(question,
is_followup=False, context="")` and converts any raised error into the ERROR
fallback dict. -/
def safe_execute_faq (o : Oracles) (question : String) : FaqResult :=
  match faqProcess o.faqSearch o.ce o.llm question false "" with
  | .ok r => r
  | .error _ => ⟨"ERROR", "", none, [], "RETRIEVER"⟩

/-- The `_get_result_with_timeout` default for the Supervisor branch. -/
def supervisorTimeoutDefault (question : String) : SupervisorResult :=
  ⟨"FAQ", question, "", false⟩

/-- The `_get_result_with_timeout` default for the FAQ branch. -/
def faqTimeoutDefault : FaqResult := ⟨"ERROR", "", none, [], ""⟩

/-- The `_get_result_with_timeout` default for the Retriever branch. -/
def retrieverTimeoutDefault : RetrieverResult := ⟨"ERROR", [], ""⟩

/-- `RAGWorkflow._parallel_execution_node`: the three branches are launched
on the state's question BEFORE any rewrite; afterwards the state's question
is replaced by the supervisor's contextualized question. -/
def parallel_execution_node (o : Oracles) (st : ChatbotState) : ChatbotState :=
  let question := st.question
  let history := st.history
  let supervisor_result :=
    if o.supTimeout then supervisorTimeoutDefault question
    else classify_request o.dbConnected o.llm o.isFu o.manualCtx o.parse question history
  let faq_result := if o.faqTimeout then faqTimeoutDefault else safe_execute_faq o question
  let retriever_result :=
    if o.retTimeout then retrieverTimeoutDefault else retrieverProcess o.docSearch
  { st with
    supervisor_classification := some supervisor_result
    question := supervisor_result.contextualized_question
    is_followup := supervisor_result.is_followup
    context_summary := supervisor_result.context_summary
    faq_result := some faq_result
    retriever_result := some retriever_result
    parallel_mode := true }

/-- `RAGWorkflow._decision_router_node`. -/
def decision_router_node (st : ChatbotState) : ChatbotState :=
  let supervisor_agent := (st.supervisor_classification.map SupervisorResult.agent).getD "FAQ"
  if supervisor_agent ∈ ["CHATTER", "REPORTER", "OTHER"] then
    { st with current_agent := supervisor_agent }
  else
    match st.faq_result with
    | some fr =>
      if fr.status = "SUCCESS" then
        { st with
          status := fr.status
          answer := fr.answer
          references := fr.references
          current_agent := "end" }
      else
        match st.retriever_result with
        | some rr =>
          if ¬ rr.documents.isEmpty then
            { st with
              documents := rr.documents
              status := rr.status
              current_agent := "GRADER" }
          else { st with current_agent := "NOT_ENOUGH_INFO" }
        | none => { st with current_agent := "NOT_ENOUGH_INFO" }
    | none =>
      match st.retriever_result with
      | some rr =>
        if ¬ rr.documents.isEmpty then
          { st with
            documents := rr.documents
            status := rr.status
            current_agent := "GRADER" }
        else { st with current_agent := "NOT_ENOUGH_INFO" }
      | none => { st with current_agent := "NOT_ENOUGH_INFO" }

/-- `RAGWorkflow._grader_node`. -/
def grader_node (o : Oracles) (st : ChatbotState) : ChatbotState :=
  let r := graderProcess o.ce st.question st.documents
  { st with
    status := r.status
    qualified_documents := r.qualified_documents
    references := r.references
    current_agent := r.next_agent }

/-- `RAGWorkflow._generator_node`. -/
def generator_node (o : Oracles) (st : ChatbotState) : ChatbotState :=
  let r := generatorProcess o.llm st.question st.qualified_documents st.references
    st.history st.is_followup st.context_summary
  { st with
    status := r.status
    answer := r.answer
    references := r.references
    current_agent := "end" }

/-- `RAGWorkflow._not_enough_info_node`. -/
def not_enough_info_node (o : Oracles) (st : ChatbotState) : ChatbotState :=
  let r := notEnoughInfoProcess o.llm st.question
  { st with
    status := r.status
    answer := r.answer
    references := r.references
    current_agent := "end" }

/-- `RAGWorkflow._chatter_node`. -/
def chatter_node (o : Oracles) (st : ChatbotState) : ChatbotState :=
  let r := chatterProcess o.llm st.question
  { st with
    status := r.status
    answer := r.answer
    references := r.references
    current_agent := "end" }

/-- `RAGWorkflow._reporter_node`. -/
def reporter_node (o : Oracles) (st : ChatbotState) : ChatbotState :=
  let r := reporterProcess o.dbConnected
  { st with
    status := r.status
    answer := r.answer
    references := r.references
    current_agent := "end" }

/-- `RAGWorkflow._other_node`. -/
def other_node (o : Oracles) (st : ChatbotState) : ChatbotState :=
  let r := otherProcess o.llm st.question
  { st with
    status := r.status
    answer := r.answer
    references := r.references
    current_agent := "end" }

/-- What `RAGWorkflow.run` returns. -/
structure RunResult where
  answer : String
  references : List Reference
  status : String
deriving DecidableEq

/-- `RAGWorkflow.run` (non-streaming): parallel fan-out, decision router,
then the routed terminal path.  The router's `NOT_ENOUGH_INFO` route has no
edge in the compiled graph's conditional-edge map, so LangGraph raises and
`run`'s `except` returns the generic failure result. -/
def terminal_dispatch (o : Oracles) (st2 : ChatbotState) : Option ChatbotState :=
  if st2.current_agent = "GRADER" then
    if (grader_node o st2).current_agent = "GENERATOR" then
      some (generator_node o (grader_node o st2))
    else some (not_enough_info_node o (grader_node o st2))
  else if st2.current_agent = "CHATTER" then some (chatter_node o st2)
  else if st2.current_agent = "REPORTER" then some (reporter_node o st2)
  else if st2.current_agent = "OTHER" then some (other_node o st2)
  else if st2.current_agent = "end" then some st2
  else none

def workflowRun (o : Oracles) (question : String) (history : List Turn) : RunResult :=
  let st2 := decision_router_node (parallel_execution_node o (createInitialState question history))
  match terminal_dispatch o st2 with
  | some st => ⟨st.answer, st.references, st.status⟩
  | none => ⟨"Xin lỗi, hệ thống gặp sự cố.", [], "ERROR"⟩

/-! ## HTTP surface (`api/main.py`) -/

/-- `utils/helpers.validate_question` (defined in the source but never
called from the API). -/
def validate_question (question : String) : Bool × String :=
  if question = "" then (false, "Câu hỏi không được để trống")
  else if pyLen (pyStrip question) < 3 then (false, "Câu hỏi quá ngắn")
  else if 1000 < pyLen question then (false, "Câu hỏi quá dài")
  else (true, "")

structure ChatRequestM where
  question : String
  history : List Turn
deriving DecidableEq

structure RefOut where
  document_id : String
  type : String
  description : Option String
deriving DecidableEq

structure ChatResponseM where
  answer : String
  references : List RefOut
  status : String
deriving DecidableEq

/-- Reference conversion in the `chat` endpoint. -/
def toRefOut (r : Reference) : RefOut := ⟨r.document_id, r.type, r.description⟩

/-- The `/chat` endpoint: 503 when the workflow is not initialized, otherwise
it runs the workflow on the question as-is — no length validation happens
before the workflow is invoked. -/
def chatEndpoint (workflowInited : Bool) (run : String → List Turn → RunResult)
    (req : ChatRequestM) : Except ℕ ChatResponseM :=
  if ¬ workflowInited then .error 503
  else
    let result := run req.question req.history
    .ok ⟨result.answer, result.references.map toRefOut, result.status⟩

/-! ## Streaming endpoint (`api/main.py`, `generate_stream_response`) -/

/-- One server-sent event (only the fields the claims mention). -/
structure SSEEvent where
  typ : String
  content : Option String
deriving DecidableEq

/-- The chunk loop of `generate_stream_response` on characters: accumulate
`current_text += word + " "`, emitting `current_text.strip()` every 5 words
and at the last word.  `n` is the total word count. -/
def chunkGo (n : ℕ) : ℕ → List Char → List (List Char) → List (List Char)
  | _, _, [] => []
  | i, cur, w :: ws =>
    let cur2 := cur ++ w ++ [' ']
    if (i + 1) % 5 = 0 ∨ i = n - 1 then stripChars cur2 :: chunkGo n (i + 1) cur2 ws
    else chunkGo n (i + 1) cur2 ws

/-- The contents of the `content`-type events for a given answer. -/
def contentChunks (answer : String) : List String :=
  let words := pySplitChars answer.data
  (chunkGo words.length 0 [] words).map fun l => ⟨l⟩

/-- `generate_stream_response`: start event, four step events, the content
events, a references event and a done event.  It runs the NON-streaming
workflow and re-chunks its answer. -/
def generate_stream_response (run : String → List Turn → RunResult)
    (question : String) (history : List Turn) : List SSEEvent :=
  let result := run question history
  [⟨"start", none⟩] ++
    [⟨"step", none⟩, ⟨"step", none⟩, ⟨"step", none⟩, ⟨"step", none⟩] ++
    (contentChunks result.answer).map (fun c => ⟨"content", some c⟩) ++
    [⟨"references", none⟩, ⟨"done", none⟩]

/-- The contents of all `content` events, in order. -/
def streamContents (run : String → List Turn → RunResult) (question : String)
    (history : List Turn) : List String :=
  (generate_stream_response run question history).filterMap fun e =>
    if e.typ = "content" then e.content else none

/-! ## Whitespace normalisation helpers (for reasoning about the chunk loop) -/

/-- Words joined with single separating spaces. -/
def interJoin : List (List Char) → List Char
  | [] => []
  | [w] => w
  | w :: x :: xs => w ++ ' ' :: interJoin (x :: xs)

/-- Words each followed by one trailing space — the accumulation shape of the
streaming chunk loop. -/
def trailJoin : List (List Char) → List Char
  | [] => []
  | w :: ws => w ++ ' ' :: trailJoin ws

/-- The whitespace-normalised form of a string: its `split()` words joined by
single spaces. -/
def normalizeWS (s : String) : String := ⟨interJoin (pySplitChars s.data)⟩

/-! ## Concrete fixtures used by closed witnesses and counterexamples -/

/-- A stored FAQ entry whose similarity (0.9) clears the force-similarity
floor; its answer has seven words. -/
def sampleFaq : Faq :=
  ⟨"faq-42", "Khung năng lực số là gì?",
    "Khung năng lực số là bộ tiêu chuẩn", mkRat 9 10⟩

/-- A fully healthy environment: reranker and LLM available, database up,
FAQ search returning `sampleFaq`, no timeouts. -/
def oraclesHappy : Oracles :=
  { ce := some fun _ _ => mkRat 4 5
    llm := some fun _ => "câu trả lời đầy đủ từ mô hình ngôn ngữ"
    dbConnected := true
    faqSearch := .ok [sampleFaq]
    docSearch := .ok []
    isFu := fun _ => false
    manualCtx := fun q _ => q
    parse := fun _ => ("FAQ", "")
    supTimeout := false
    faqTimeout := false
    retTimeout := false }

/-- The same environment with the cross-encoder reranker unavailable. -/
def oraclesNoCE : Oracles := { oraclesHappy with ce := none }

/-- Two FAQ entries with identical texts and scores but different ids: their
fused rerank scores tie, so the stable sort keeps them in input order. -/
def faqTwinA : Faq := ⟨"twin-A", "câu hỏi chung", "đáp án chung", mkRat 3 5⟩

def faqTwinB : Faq := ⟨"twin-B", "câu hỏi chung", "đáp án chung", mkRat 3 5⟩

/-- A constant cross-encoder (every pair scores 0.7). -/
def ceConst : CE := fun _ _ => mkRat 7 10

/-- A cross-encoder giving the two twin questions different scores, for the
distinct-scores witness. -/
def ceVaried : CE := fun _ passage => if passage = "một" then mkRat 4 5 else mkRat 7 10

/-- Entries with different questions, so `ceVaried` fuses distinct scores. -/
def faqUnlike1 : Faq := ⟨"u1", "một", "đáp án một", mkRat 3 5⟩

def faqUnlike2 : Faq := ⟨"u2", "hai", "đáp án hai", mkRat 3 5⟩

/-- A cross-encoder scoring every pair 0.8 (above the direct-answer
threshold after fusion: 0.8·1.1 = 0.88). -/
def ceHigh : CE := fun _ _ => mkRat 4 5

/-- A FAQ whose similarity (0.6) passes the vector filter but is below the
force-similarity floor 0.85. -/
def faqMid : Faq := ⟨"mid-1", "câu hỏi vừa", "đáp án vừa", mkRat 3 5⟩

/-- A retrieved document whose description contains the substring `"error"`,
making `str(reranked_docs)` contain `"error"` and triggering the grader's
similarity-only fallback. -/
def docWithErrorText : Doc := ⟨"doc-1", "mô tả có chữ error bên trong", mkRat 3 10, none⟩

/-- An ordinary retrieved document (similarity 0.3, no `"error"` text). -/
def docPlain : Doc := ⟨"doc-2", "tài liệu bình thường", mkRat 3 10, none⟩

/-! # Theorems -/

/-! ## Arithmetic bridge lemmas -/

theorem qMul_eq_mul (a b : ℚ) : qMul a b = a * b := by
  rw [qMul, Rat.mkRat_eq_div, Rat.mul_def, Rat.normalize_eq_mkRat, Rat.mkRat_eq_div]

theorem qAdd_eq_add (a b : ℚ) : qAdd a b = a + b := by
  rw [qAdd, Rat.add_def']

theorem fuseWeighted_eq (sq sqa sa : ℚ) :
    fuseWeighted sq sqa sa =
      sq * FAQ_QUESTION_WEIGHT + sqa * FAQ_QA_WEIGHT + sa * FAQ_ANSWER_WEIGHT := by
  rw [fuseWeighted, qAdd_eq_add, qAdd_eq_add, qMul_eq_mul, qMul_eq_mul, qMul_eq_mul]

/-! ## C8: query-vector dimension reconciliation -/

/-- `pad_vector_to_dimension` always produces a vector of the target length. -/
theorem pad_vector_length (v : List ℚ) (D : ℕ) :
    (pad_vector_to_dimension v D).length = D := by
  rw [pad_vector_to_dimension]
  split
  · simp
    omega
  · simp
    omega

/-- C8.  For every query vector and positive declared collection dimension D,
the adjusted vector has length exactly D; it is the zero-padding of the input
when the input is shorter, its D-prefix when longer, and the input itself when
the lengths agree.  This holds for `pad_vector_to_dimension`
(`tools/vector_search.py`), `_adjust_vector_dimension` and
`_validate_vector_dimension` (`database/milvus_client.py`), and for the
composed `safe_encode_and_fix_dimension`. -/
theorem c8_dimension_reconciliation (v : List ℚ) (D : ℕ) (hD : 0 < D) :
    (pad_vector_to_dimension v D).length = D ∧
    (adjust_vector_dimension v D).length = D ∧
    (validate_vector_dimension v D).length = D ∧
    (v.length < D →
      pad_vector_to_dimension v D = v ++ List.replicate (D - v.length) 0 ∧
      adjust_vector_dimension v D = v ++ List.replicate (D - v.length) 0) ∧
    (D < v.length →
      pad_vector_to_dimension v D = v.take D ∧
      adjust_vector_dimension v D = v.take D) ∧
    (v.length = D →
      pad_vector_to_dimension v D = v ∧ adjust_vector_dimension v D = v ∧
      validate_vector_dimension v D = v) ∧
    (∀ encode : String → List ℚ, ∀ query : String,
      (safe_encode_and_fix_dimension encode D query).length = D) := by
  have hadj : ∀ w : List ℚ, (adjust_vector_dimension w D).length = D := by
    intro w
    rw [adjust_vector_dimension]
    split
    · simp
      omega
    · split
      · simp
        omega
      · omega
  refine ⟨pad_vector_length v D, hadj v, ?_, ?_, ?_, ?_, ?_⟩
  · rw [validate_vector_dimension]
    split
    · omega
    · split
      · exact hadj v
      · omega
  · intro hlt
    constructor
    · rw [pad_vector_to_dimension, if_neg (by omega)]
    · rw [adjust_vector_dimension, if_pos hlt]
  · intro hgt
    constructor
    · rw [pad_vector_to_dimension, if_pos (by omega)]
    · rw [adjust_vector_dimension, if_neg (by omega), if_pos hgt]
  · intro heq
    refine ⟨?_, ?_, ?_⟩
    · rw [pad_vector_to_dimension, if_pos (by omega)]
      exact List.take_of_length_le (by omega)
    · rw [adjust_vector_dimension, if_neg (by omega), if_neg (by omega)]
    · rw [validate_vector_dimension, if_neg (by omega), if_neg (by omega)]
  · intro encode query
    rw [safe_encode_and_fix_dimension]
    split
    · exact pad_vector_length _ D
    · omega

/-- Witness for C8 at `v = [1, 2]`, `D = 3`. -/
theorem c8_witness :
    0 < 3 ∧
    (pad_vector_to_dimension [(1 : ℚ), 2] 3).length = 3 ∧
    (adjust_vector_dimension [(1 : ℚ), 2] 3).length = 3 := by
  have h := c8_dimension_reconciliation [(1 : ℚ), 2] 3 (by decide)
  exact ⟨by decide, h.1, h.2.1⟩

/-! ## C6: question-length validation -/

/-- C6 (amended).  `helpers.validate_question` does classify empty, stripped
length < 3, and length > 1000 questions as invalid with a short Vietnamese
message and accepts stripped length ≥ 3 up to 1000 — but the `/chat` endpoint
never calls it: whenever the workflow is initialized, every request
(regardless of question length) is passed straight to the workflow and
answered with a normal 200 response, never a 4xx. -/
theorem c6_validation_never_wired :
    (validate_question "" = (false, "Câu hỏi không được để trống")) ∧
    (∀ q : String, q ≠ "" → pyLen (pyStrip q) < 3 →
      validate_question q = (false, "Câu hỏi quá ngắn")) ∧
    (∀ q : String, q ≠ "" → 3 ≤ pyLen (pyStrip q) → 1000 < pyLen q →
      validate_question q = (false, "Câu hỏi quá dài")) ∧
    (∀ q : String, q ≠ "" → 3 ≤ pyLen (pyStrip q) → pyLen q ≤ 1000 →
      validate_question q = (true, "")) ∧
    (∀ run : String → List Turn → RunResult, ∀ req : ChatRequestM,
      chatEndpoint true run req =
        .ok ⟨(run req.question req.history).answer,
          (run req.question req.history).references.map toRefOut,
          (run req.question req.history).status⟩) := by
  refine ⟨by decide, ?_, ?_, ?_, ?_⟩
  · intro q hne hshort
    rw [validate_question, if_neg hne, if_pos hshort]
  · intro q hne hlen hlong
    rw [validate_question, if_neg hne, if_neg (by omega), if_pos hlong]
  · intro q hne hlen hok
    rw [validate_question, if_neg hne, if_neg (by omega), if_neg (by omega)]
  · intro run req
    rw [chatEndpoint, if_neg (by simp)]

/-- Witness for C6 at concrete questions and a concrete request. -/
theorem c6_witness :
    ("ab" ≠ "" ∧ pyLen (pyStrip "ab") < 3 ∧
      validate_question "ab" = (false, "Câu hỏi quá ngắn")) ∧
    ("abc" ≠ "" ∧ 3 ≤ pyLen (pyStrip "abc") ∧ pyLen "abc" ≤ 1000 ∧
      validate_question "abc" = (true, "")) ∧
    chatEndpoint true (workflowRun oraclesHappy) ⟨"ab", []⟩ =
      .ok ⟨(workflowRun oraclesHappy "ab" []).answer,
        (workflowRun oraclesHappy "ab" []).references.map toRefOut,
        (workflowRun oraclesHappy "ab" []).status⟩ :=
  ⟨⟨by decide, by decide,
      c6_validation_never_wired.2.1 "ab" (by decide) (by decide)⟩,
    ⟨by decide, by decide, by decide,
      c6_validation_never_wired.2.2.2.1 "abc" (by decide) (by decide) (by decide)⟩,
    c6_validation_never_wired.2.2.2.2 (workflowRun oraclesHappy) ⟨"ab", []⟩⟩

/-- C6 counterexample to the claim as stated: the two-character question
`"ab"` is NOT rejected with a 4xx — the `/chat` endpoint runs the workflow
and returns a well-formed 200 response (here a direct FAQ SUCCESS answer). -/
theorem c6_counterexample :
    chatEndpoint true (workflowRun oraclesHappy) ⟨"ab", []⟩ =
      .ok ⟨"Khung năng lực số là bộ tiêu chuẩn",
        [⟨"faq-42", "FAQ", some "Khung năng lực số là gì?"⟩], "SUCCESS"⟩ := by
  decide

/-! ## C10: the parallel FAQ branch always receives the original question -/

/-- C10.  In `_parallel_execution_node`, the FAQ branch is invoked through
`_safe_execute_faq` on the state's question at entry — the caller's original
question — with `is_followup = False` and `context = ""`, while the state's
question is afterwards replaced by the classifier's contextualized rewrite.
The rewrite never reaches the FAQ agent. -/
theorem c10_faq_branch_gets_original (o : Oracles) (question : String)
    (history : List Turn) (hft : o.faqTimeout = false) :
    (parallel_execution_node o (createInitialState question history)).faq_result =
      some (safe_execute_faq o question) ∧
    safe_execute_faq o question =
      (match faqProcess o.faqSearch o.ce o.llm question false "" with
        | .ok r => r
        | .error _ => ⟨"ERROR", "", none, [], "RETRIEVER"⟩) ∧
    (parallel_execution_node o (createInitialState question history)).question =
      (if o.supTimeout then supervisorTimeoutDefault question
        else classify_request o.dbConnected o.llm o.isFu o.manualCtx o.parse
          question history).contextualized_question := by
  refine ⟨?_, rfl, rfl⟩
  rw [parallel_execution_node]
  simp [createInitialState, hft]

/-- Witness for C10 in the healthy environment, where the classifier is
forced to rewrite the question (`parse` returns FAQ; here we override the
manual-context oracle so a rewrite would be visible if it were used). -/
theorem c10_witness :
    oraclesHappy.faqTimeout = false ∧
    (parallel_execution_node oraclesHappy
        (createInitialState "Khung năng lực số là gì?" [])).faq_result =
      some (safe_execute_faq oraclesHappy "Khung năng lực số là gì?") :=
  ⟨rfl, (c10_faq_branch_gets_original oraclesHappy "Khung năng lực số là gì?" [] rfl).1⟩

/-! ## C9: reference deduplication -/

theorem dedupRefsAux_mem : ∀ (l : List Reference) (seen : List String) (r : Reference),
    r ∈ dedupRefsAux seen l → r ∈ l ∧ r.document_id ∉ seen ∧ r.document_id ≠ ""
  | [], seen, r => by simp [dedupRefsAux]
  | x :: rs, seen, r => by
    rw [dedupRefsAux]
    split
    case isTrue h =>
      intro hmem
      rcases List.mem_cons.1 hmem with heq | hmem2
      · subst heq
        exact ⟨List.mem_cons_self _ _, h.2, h.1⟩
      · have ih := dedupRefsAux_mem rs (x.document_id :: seen) r hmem2
        exact ⟨List.mem_cons_of_mem _ ih.1,
          fun hs => ih.2.1 (List.mem_cons_of_mem _ hs), ih.2.2⟩
    case isFalse h =>
      intro hmem
      have ih := dedupRefsAux_mem rs seen r hmem
      exact ⟨List.mem_cons_of_mem _ ih.1, ih.2.1, ih.2.2⟩

theorem dedupRefsAux_nodup : ∀ (l : List Reference) (seen : List String),
    ((dedupRefsAux seen l).map Reference.document_id).Nodup
  | [], seen => by simp [dedupRefsAux]
  | x :: rs, seen => by
    rw [dedupRefsAux]
    split
    case isTrue h =>
      simp only [List.map_cons, List.nodup_cons]
      refine ⟨?_, dedupRefsAux_nodup rs (x.document_id :: seen)⟩
      intro hmem
      obtain ⟨s, hs, hid⟩ := List.mem_map.1 hmem
      exact (dedupRefsAux_mem rs _ s hs).2.1 (by rw [hid]; exact List.mem_cons_self _ _)
    case isFalse h => exact dedupRefsAux_nodup rs seen

theorem dedupRefsAux_sublist : ∀ (l : List Reference) (seen : List String),
    (dedupRefsAux seen l).Sublist l
  | [], _ => by simp [dedupRefsAux]
  | x :: rs, seen => by
    rw [dedupRefsAux]
    split
    · exact (dedupRefsAux_sublist rs _).cons₂ x
    · exact (dedupRefsAux_sublist rs seen).cons x

theorem dedupRefsAux_find : ∀ (l : List Reference) (seen : List String) (r : Reference),
    r ∈ dedupRefsAux seen l →
    l.find? (fun s => s.document_id == r.document_id) = some r
  | [], seen, r => by simp [dedupRefsAux]
  | x :: rs, seen, r => by
    rw [dedupRefsAux]
    split
    case isTrue h =>
      intro hmem
      rcases List.mem_cons.1 hmem with heq | hmem2
      · subst heq
        rw [List.find?_cons_of_pos]
        simp
      · have hr := dedupRefsAux_mem rs (x.document_id :: seen) r hmem2
        have hne : x.document_id ≠ r.document_id := fun he =>
          hr.2.1 (he ▸ List.mem_cons_self _ _)
        rw [List.find?_cons_of_neg _ (by simp [hne])]
        exact dedupRefsAux_find rs _ r hmem2
    case isFalse h =>
      intro hmem
      have hr := dedupRefsAux_mem rs seen r hmem
      have hne : x.document_id ≠ r.document_id := by
        intro he
        rcases not_and_or.1 h with h1 | h2
        · exact hr.2.2 (he ▸ not_not.1 h1)
        · exact hr.2.1 (he ▸ not_not.1 h2)
      rw [List.find?_cons_of_neg _ (by simp [hne])]
      exact dedupRefsAux_find rs seen r hmem

/-- Mapping over a list of length at most one cannot create duplicates. -/
theorem map_nodup_of_len_le_one {α β : Type} (f : α → β) :
    ∀ l : List α, l.length ≤ 1 → (l.map f).Nodup
  | [], _ => by simp
  | [a], _ => by simp
  | a :: b :: t, h => by simp at h

theorem faqProcess_refs_len (sr : Except Unit (List Faq)) (ce : Option CE)
    (llm : Option LLM) (q : String) (b : Bool) (c : String) (r : FaqResult)
    (h : faqProcess sr ce llm q b c = .ok r) : r.references.length ≤ 1 := by
  rcases sr with u | faqs
  · simp [faqProcess] at h
  · unfold faqProcess at h
    dsimp only at h
    by_cases h1 : (faqs.isEmpty || faqsStrHasError faqs) = true
    · rw [if_pos h1] at h
      cases h
      simp [routeToRetriever]
    · rw [if_neg h1] at h
      by_cases h2 : (faqs.filter faqVectorFilter).isEmpty = true
      · rw [if_pos h2] at h
        cases h
        simp [routeToRetriever]
      · rw [if_neg h2] at h
        rcases hr : rerank_faq ce q (faqs.filter faqVectorFilter) with u | reranked
        · rw [hr] at h
          cases h
        · rw [hr] at h
          rcases reranked with _ | ⟨best, tail⟩
          · cases h
          · dsimp only at h
            by_cases h3 : ¬ forceSimilarityThreshold ≤ best.similarity_score
            · rw [if_pos h3] at h
              cases h
              simp [routeToRetriever]
            · rw [if_neg h3] at h
              by_cases h4 : directAnswerThreshold ≤ best.rerank_score ∨
                  forceSimilarityThreshold ≤ best.similarity_score
              · rw [if_pos h4] at h
                cases h
                simp
              · rw [if_neg h4] at h
                rcases llm with _ | g
                · cases h
                · dsimp only at h
                  by_cases h5 :
                      hasSub (pyUpper (g (faqLlmPrompt q (List.take 3 (best :: tail)))))
                        "NOT_FOUND" = true
                  · rw [if_pos h5] at h
                    cases h
                    simp [routeToRetriever]
                  · rw [if_neg h5] at h
                    by_cases h6 :
                        ((g (faqLlmPrompt q (List.take 3 (best :: tail)))).isEmpty ||
                          decide (pyLen
                            (pyStrip (g (faqLlmPrompt q (List.take 3 (best :: tail))))) <
                              10)) = true
                    · rw [if_pos h6] at h
                      cases h
                      simp [routeToRetriever]
                    · rw [if_neg h6] at h
                      cases h
                      simp

theorem safe_execute_faq_refs_len (o : Oracles) (q : String) :
    (safe_execute_faq o q).references.length ≤ 1 := by
  rw [safe_execute_faq]
  split
  case h_1 r heq => exact faqProcess_refs_len _ _ _ _ _ _ r heq
  case h_2 => simp

theorem generatorProcess_refs (llm : Option LLM) (q : String) (docs : List Doc)
    (refs : List Reference) (hist : List Turn) (fu : Bool) (cs : String) :
    (generatorProcess llm q docs refs hist fu cs).references = [] ∨
    (generatorProcess llm q docs refs hist fu cs).references =
      deduplicate_references refs := by
  unfold generatorProcess
  split
  · exact .inl rfl
  · match llm with
    | none => exact .inl rfl
    | some g => exact .inr rfl

theorem generator_node_refs (o : Oracles) (st : ChatbotState) :
    (generator_node o st).references =
      (generatorProcess o.llm st.question st.qualified_documents st.references
        st.history st.is_followup st.context_summary).references := rfl

theorem not_enough_info_node_refs (o : Oracles) (st : ChatbotState) :
    (not_enough_info_node o st).references =
      (notEnoughInfoProcess o.llm st.question).references := rfl

theorem chatter_node_refs (o : Oracles) (st : ChatbotState) :
    (chatter_node o st).references = (chatterProcess o.llm st.question).references := rfl

theorem reporter_node_refs (o : Oracles) (st : ChatbotState) :
    (reporter_node o st).references = (reporterProcess o.dbConnected).references := rfl

theorem other_node_refs (o : Oracles) (st : ChatbotState) :
    (other_node o st).references = (otherProcess o.llm st.question).references := rfl

/-- C9.  (a) `_deduplicate_references` output has pairwise-distinct
`document_id`s, is a subsequence of the input (so retained entries keep
input order), and every retained entry is the first occurrence of its
`document_id` in the input; (b) for every environment, question and history,
the references list returned to the caller by `RAGWorkflow.run` contains no
two entries with the same `document_id`. -/
theorem c9_references_dedup :
    (∀ refs : List Reference,
      ((deduplicate_references refs).map Reference.document_id).Nodup ∧
      (deduplicate_references refs).Sublist refs ∧
      ∀ r ∈ deduplicate_references refs,
        refs.find? (fun s => s.document_id == r.document_id) = some r) ∧
    (∀ o : Oracles, ∀ question : String, ∀ history : List Turn,
      ((workflowRun o question history).references.map Reference.document_id).Nodup) := by
  constructor
  · intro refs
    exact ⟨dedupRefsAux_nodup refs [], dedupRefsAux_sublist refs [],
      fun r hr => dedupRefsAux_find refs [] r hr⟩
  · intro o question history
    rw [workflowRun]
    have hfaq : ∀ fr : FaqResult,
        (parallel_execution_node o (createInitialState question history)).faq_result =
          some fr → fr.references.length ≤ 1 := by
      intro fr hfr
      rw [parallel_execution_node] at hfr
      simp only [Option.some.injEq] at hfr
      subst hfr
      split
      · simp [faqTimeoutDefault]
      · exact safe_execute_faq_refs_len o _
    split
    case h_2 => simp
    case h_1 st hst =>
      rw [terminal_dispatch] at hst
      split at hst
      · -- GRADER route
        split at hst
        · -- generator
          cases hst
          rw [generator_node_refs]
          rcases generatorProcess_refs o.llm _ _ _ _ _ _ with hr | hr
          · rw [hr]
            simp
          · rw [hr]
            exact dedupRefsAux_nodup _ []
        · -- not enough info
          cases hst
          rw [not_enough_info_node_refs]
          refine map_nodup_of_len_le_one _ _ ?_
          rcases o.llm with _ | g <;> simp [notEnoughInfoProcess]
      · split at hst
        · -- chatter
          cases hst
          rw [chatter_node_refs]
          refine map_nodup_of_len_le_one _ _ ?_
          rcases o.llm with _ | g <;> simp [chatterProcess]
        · split at hst
          · -- reporter
            cases hst
            rw [reporter_node_refs]
            refine map_nodup_of_len_le_one _ _ ?_
            simp [reporterProcess]
          · split at hst
            · -- other
              cases hst
              rw [other_node_refs]
              refine map_nodup_of_len_le_one _ _ ?_
              rcases o.llm with _ | g <;> simp [otherProcess]
            · split at hst
              · -- "end": the router's FAQ-SUCCESS terminal state
                cases hst
                refine map_nodup_of_len_le_one _ _ ?_
                rw [decision_router_node]
                split
                · simp [parallel_execution_node, createInitialState]
                · split
                  case h_1 fr hfr =>
                    split
                    · exact hfaq fr hfr
                    · split
                      case h_1 rr hrr =>
                        split
                        · simp [parallel_execution_node, createInitialState]
                        · simp [parallel_execution_node, createInitialState]
                      case h_2 => simp [parallel_execution_node, createInitialState]
                  case h_2 hfr =>
                    split
                    case h_1 rr hrr =>
                      split
                      · simp [parallel_execution_node, createInitialState]
                      · simp [parallel_execution_node, createInitialState]
                    case h_2 => simp [parallel_execution_node, createInitialState]
              · cases hst

/-! ## C5: score fusion and ranking stability -/

/-- The stable descending sort is insensitive to input order whenever the
sort keys are pairwise distinct. -/
theorem sortByKeyDesc_eq_of_perm_nodup {α : Type} (key : α → ℚ) {l₁ l₂ : List α}
    (hp : l₁.Perm l₂) (hn : (l₁.map key).Nodup) :
    sortByKeyDesc key l₁ = sortByKeyDesc key l₂ := by
  have hperm1 := List.perm_insertionSort (keyGE key) l₁
  have hperm2 := List.perm_insertionSort (keyGE key) l₂
  have hs1 := List.sorted_insertionSort (keyGE key) l₁
  have hs2 := List.sorted_insertionSort (keyGE key) l₂
  have hn1 : ((List.insertionSort (keyGE key) l₁).map key).Nodup :=
    ((hperm1.map key).nodup_iff).2 hn
  have hn2 : ((List.insertionSort (keyGE key) l₂).map key).Nodup :=
    ((hperm2.map key).nodup_iff).2 ((hp.map key).nodup_iff.1 hn)
  have hstrict : ∀ (l : List α), List.Sorted (keyGE key) l → ((l.map key).Nodup) →
      List.Sorted (keyGT key) l := by
    intro l hsor hnod
    have hne : l.Pairwise fun a b => key a ≠ key b := List.pairwise_map.1 hnod
    exact (hsor.and hne).imp fun h => lt_of_le_of_ne h.1 (Ne.symm h.2)
  exact List.eq_of_perm_of_sorted
    ((hperm1.trans hp).trans hperm2.symm)
    (hstrict _ hs1 hn1) (hstrict _ hs2 hn2)

/-- C5 (amended).  (a) The fused FAQ score is exactly the weighted sum
`0.5·s_q + 0.3·s_qa + 0.2·s_a`, multiplied by the consistency bonus 1.1
exactly when all three variant scores strictly exceed the consistency floor
0.6.  (b) Permuting the input candidates does not change the ranking
produced by `rerank_faq` PROVIDED the fused scores are pairwise distinct;
with tied scores the stable sort preserves input order, so the output order
of tied candidates depends on the input order (see the counterexample). -/
theorem c5_fusion_and_ranking :
    (∀ sq sqa sa : ℚ,
      fuseFinal sq sqa sa =
        (sq * FAQ_QUESTION_WEIGHT + sqa * FAQ_QA_WEIGHT + sa * FAQ_ANSWER_WEIGHT) *
          (if FAQ_CONSISTENCY_THRESHOLD < sq ∧ FAQ_CONSISTENCY_THRESHOLD < sqa ∧
              FAQ_CONSISTENCY_THRESHOLD < sa then FAQ_CONSISTENCY_BONUS else 1)) ∧
    (∀ f : CE, ∀ query : String, ∀ l₁ l₂ : List Faq, l₁.Perm l₂ →
      ((scoredFaqs f query l₁).map RankedFaq.rerank_score).Nodup →
      rerank_faq (some f) query l₁ = rerank_faq (some f) query l₂) := by
  constructor
  · intro sq sqa sa
    rw [fuseFinal]
    split
    case isTrue hc =>
      rw [qMul_eq_mul, fuseWeighted_eq]
    case isFalse hc =>
      rw [fuseWeighted_eq, mul_one]
  · intro f query l₁ l₂ hp hn
    have hscored : (scoredFaqs f query l₁).Perm (scoredFaqs f query l₂) :=
      (hp.filter faqKeep).map (scoreFaqEntry f query)
    have hiso : ∀ {β : Type} {m₁ m₂ : List β}, m₁.Perm m₂ → m₁.isEmpty = m₂.isEmpty := by
      intro β m₁ m₂ hm
      rcases m₁ with _ | ⟨a, t⟩
      · rw [hm.symm.eq_nil]
      · rcases m₂ with _ | ⟨b, u⟩
        · exact absurd hm.eq_nil (by simp)
        · rfl
    rw [rerank_faq, rerank_faq, hiso hp]
    by_cases he : l₂.isEmpty = true
    · rw [if_pos he, if_pos he]
    · rw [if_neg he, if_neg he]
      simp only [hiso hscored]
      by_cases hse : (scoredFaqs f query l₂).isEmpty = true
      · rw [if_pos hse, if_pos hse]
      · rw [if_neg hse, if_neg hse]
        exact congrArg Except.ok (sortByKeyDesc_eq_of_perm_nodup _ hscored hn)

/-- C5 counterexample to the unrestricted permutation statement: two FAQ
entries with identical texts (hence tied fused scores) swap positions in the
output when the input order is swapped, so reordering the input changes the
final ranking. -/
theorem c5_counterexample :
    ([faqTwinA, faqTwinB] : List Faq).Perm [faqTwinB, faqTwinA] ∧
    rerank_faq (some ceConst) "câu hỏi" [faqTwinA, faqTwinB] ≠
      rerank_faq (some ceConst) "câu hỏi" [faqTwinB, faqTwinA] := by
  constructor
  · exact List.Perm.swap faqTwinB faqTwinA []
  · decide

/-- Witness for C5: the fusion formula at concrete scores, and permutation
invariance at two candidates with distinct fused scores. -/
theorem c5_witness :
    (fuseFinal (mkRat 7 10) (mkRat 7 10) (mkRat 7 10) =
      ((mkRat 7 10) * FAQ_QUESTION_WEIGHT + (mkRat 7 10) * FAQ_QA_WEIGHT +
          (mkRat 7 10) * FAQ_ANSWER_WEIGHT) *
        (if FAQ_CONSISTENCY_THRESHOLD < mkRat 7 10 ∧
            FAQ_CONSISTENCY_THRESHOLD < mkRat 7 10 ∧
            FAQ_CONSISTENCY_THRESHOLD < mkRat 7 10 then FAQ_CONSISTENCY_BONUS
          else 1)) ∧
    rerank_faq (some ceVaried) "hỏi" [faqUnlike1, faqUnlike2] =
      rerank_faq (some ceVaried) "hỏi" [faqUnlike2, faqUnlike1] :=
  ⟨c5_fusion_and_ranking.1 (mkRat 7 10) (mkRat 7 10) (mkRat 7 10),
    c5_fusion_and_ranking.2 ceVaried "hỏi" [faqUnlike1, faqUnlike2]
      [faqUnlike2, faqUnlike1] (List.Perm.swap faqUnlike2 faqUnlike1 [])
      (by decide)⟩

/-! ## C1: dual thresholds on documents delivered to the Generator -/

/-- C1 (amended).  On the rerank-success path — reranking available and no
document's rendering contains the substring `"error"`, so the similarity-only
fallback `_fallback_grading` is not taken — every qualified document
delivered to the Generator satisfies BOTH `rerank_score ≥ 0.6` and
`similarity_score ≥ 0.2`.  (When the rendering does contain `"error"`, the
grader silently falls back to similarity-only grading; see the
counterexample.) -/
theorem c1_rerank_path_dual_threshold (f : CE) (question : String)
    (documents : List Doc)
    (hclean : ∀ d ∈ documents, hasSub d.document_id "error" = false ∧
      hasSub d.description "error" = false) :
    ∀ d ∈ (graderProcess (some f) question documents).qualified_documents,
      graderRerankingThreshold ≤ d.getRerank ∧
      SIMILARITY_THRESHOLD ≤ d.similarity_score := by
  intro d hd
  by_cases hde : documents.isEmpty = true
  · unfold graderProcess at hd
    rw [if_pos hde] at hd
    simp at hd
  · have hrr : rerank_documents (some f) question documents =
        .ok (sortByKeyDesc Doc.getRerank (documents.map fun d =>
          { d with rerank_score := some (f question (truncAt 500 d.description)) })) := by
      unfold rerank_documents
      rw [if_neg hde]
    unfold graderProcess at hd
    rw [if_neg hde, hrr] at hd
    dsimp only at hd
    have herr : docsStrHasError (sortByKeyDesc Doc.getRerank (documents.map fun d =>
        { d with rerank_score := some (f question (truncAt 500 d.description)) })) =
          false := by
      rw [docsStrHasError, List.any_eq_false]
      intro x hx
      rw [sortByKeyDesc, List.mem_insertionSort] at hx
      obtain ⟨d0, hd0, hxd⟩ := List.mem_map.1 hx
      subst hxd
      simp [(hclean d0 hd0).1, (hclean d0 hd0).2]
    have hnemp : (sortByKeyDesc Doc.getRerank (documents.map fun d =>
        { d with rerank_score := some (f question (truncAt 500 d.description)) })).isEmpty =
          false := by
      rw [List.isEmpty_eq_false_iff_exists_mem]
      rcases documents with _ | ⟨d0, t⟩
      · simp at hde
      · refine ⟨{ d0 with rerank_score := some (f question (truncAt 500 d0.description)) }, ?_⟩
        rw [sortByKeyDesc, List.mem_insertionSort]
        exact List.mem_map_of_mem _ (List.mem_cons_self _ _)
    rw [if_neg (by simp [herr, hnemp])] at hd
    by_cases hq : ((sortByKeyDesc Doc.getRerank (documents.map fun d =>
        { d with rerank_score := some (f question (truncAt 500 d.description)) })).filter
          fun d => decide (graderRerankingThreshold ≤ d.getRerank) &&
            decide (SIMILARITY_THRESHOLD ≤ d.similarity_score)).isEmpty = true
    · rw [if_pos hq] at hd
      simp at hd
    · rw [if_neg hq] at hd
      dsimp only at hd
      have := List.mem_filter.1 hd
      have hb := this.2
      rw [Bool.and_eq_true, decide_eq_true_iff, decide_eq_true_iff] at hb
      exact hb

/-- Witness for C1 at an error-free document that passes both thresholds. -/
theorem c1_witness :
    (∀ d ∈ ([⟨"doc-9", "tài liệu sạch", mkRat 3 10, none⟩] : List Doc),
      hasSub d.document_id "error" = false ∧ hasSub d.description "error" = false) ∧
    ∀ d ∈ (graderProcess (some ceHigh) "câu hỏi"
        [⟨"doc-9", "tài liệu sạch", mkRat 3 10, none⟩]).qualified_documents,
      graderRerankingThreshold ≤ d.getRerank ∧
      SIMILARITY_THRESHOLD ≤ d.similarity_score :=
  ⟨by decide,
    c1_rerank_path_dual_threshold ceHigh "câu hỏi"
      [⟨"doc-9", "tài liệu sạch", mkRat 3 10, none⟩] (by decide)⟩

/-- C1 counterexample to the claim as stated: with a document whose
description contains `"error"`, reranking succeeds but the grader takes
`_fallback_grading`; the document is delivered to the Generator (next agent
GENERATOR, status SUFFICIENT) although its rerank score (absent, read as 0)
is below the 0.6 rerank threshold. -/
theorem c1_counterexample :
    (graderProcess (some ceHigh) "câu hỏi" [docWithErrorText]).next_agent =
      "GENERATOR" ∧
    (graderProcess (some ceHigh) "câu hỏi" [docWithErrorText]).status = "SUFFICIENT" ∧
    ∃ d ∈ (graderProcess (some ceHigh) "câu hỏi" [docWithErrorText]).qualified_documents,
      ¬ graderRerankingThreshold ≤ d.getRerank := by
  decide

/-! ## C2: reranker failures are contained, not propagated as 5xx -/

/-- C2 (amended).  A reranker failure never reaches the HTTP caller as a
5xx: (a) with the cross-encoder unavailable, `_safe_execute_faq` converts
the FAQ agent's raised error into the ERROR fallback result (or the agent
already deferred before reranking); (b) a document-grading rerank failure is
caught inside the grader and becomes ERROR → NOT_ENOUGH_INFO; (c) whenever
the workflow is initialized, the `/chat` endpoint returns a well-formed 200
response for every request and environment.  (Moreover the grader does
silently fall back to similarity-only grading when the rerank output renders
with `"error"` — see the C1 counterexample.) -/
theorem c2_reranker_failure_contained :
    (∀ o : Oracles, o.ce = none → ∀ q : String,
      safe_execute_faq o q = ⟨"ERROR", "", none, [], "RETRIEVER"⟩ ∨
      safe_execute_faq o q = routeToRetriever) ∧
    (∀ q : String, ∀ docs : List Doc, docs.isEmpty = false →
      graderProcess none q docs = ⟨"ERROR", [], [], "NOT_ENOUGH_INFO"⟩) ∧
    (∀ o : Oracles, ∀ req : ChatRequestM,
      chatEndpoint true (workflowRun o) req =
        .ok ⟨(workflowRun o req.question req.history).answer,
          (workflowRun o req.question req.history).references.map toRefOut,
          (workflowRun o req.question req.history).status⟩) := by
  refine ⟨?_, ?_, ?_⟩
  · intro o hce q
    have hok : ∀ r : FaqResult,
        faqProcess o.faqSearch o.ce o.llm q false "" = .ok r → r = routeToRetriever := by
      intro r h
      rw [hce] at h
      rcases hsr : o.faqSearch with u | faqs
      · rw [hsr] at h
        simp [faqProcess] at h
      · rw [hsr] at h
        unfold faqProcess at h
        dsimp only at h
        by_cases h1 : (faqs.isEmpty || faqsStrHasError faqs) = true
        · rw [if_pos h1] at h
          cases h
          rfl
        · rw [if_neg h1] at h
          by_cases h2 : (faqs.filter faqVectorFilter).isEmpty = true
          · rw [if_pos h2] at h
            cases h
            rfl
          · have hrf : rerank_faq none q (faqs.filter faqVectorFilter) = .error () := by
              unfold rerank_faq
              rw [if_neg h2]
            rw [if_neg h2, hrf] at h
            simp at h
    rw [safe_execute_faq]
    split
    case h_1 r heq => exact .inr (by rw [hok r heq])
    case h_2 => exact .inl rfl
  · intro q docs hne
    have hrd : rerank_documents none q docs = .error () := by
      unfold rerank_documents
      rw [hne]
      rfl
    unfold graderProcess
    rw [hne, hrd]
    rfl
  · intro o req
    rw [chatEndpoint, if_neg (by simp)]

/-- Witness for C2: the contained-failure facts at concrete inputs. -/
theorem c2_witness :
    (safe_execute_faq oraclesNoCE "câu hỏi" = ⟨"ERROR", "", none, [], "RETRIEVER"⟩ ∨
      safe_execute_faq oraclesNoCE "câu hỏi" = routeToRetriever) ∧
    graderProcess none "câu hỏi" [docPlain] = ⟨"ERROR", [], [], "NOT_ENOUGH_INFO"⟩ ∧
    chatEndpoint true (workflowRun oraclesNoCE) ⟨"câu hỏi", []⟩ =
      .ok ⟨(workflowRun oraclesNoCE "câu hỏi" []).answer,
        (workflowRun oraclesNoCE "câu hỏi" []).references.map toRefOut,
        (workflowRun oraclesNoCE "câu hỏi" []).status⟩ :=
  ⟨c2_reranker_failure_contained.1 oraclesNoCE rfl "câu hỏi",
    c2_reranker_failure_contained.2.1 "câu hỏi" [docPlain] (by decide),
    c2_reranker_failure_contained.2.2 oraclesNoCE ⟨"câu hỏi", []⟩⟩

/-- C2 counterexample to the claim as stated: with the reranker unavailable
the FAQ agent does raise (`.error ()`), but the workflow's safe executor
swallows it into an ERROR result and the `/chat` endpoint answers 200 `.ok`
with a graceful ERROR body — no 5xx ever reaches the caller.  And the grader
silently falls back to similarity-only ranking: a qualified document is
delivered with no cross-encoder score at all. -/
theorem c2_counterexample :
    faqProcess oraclesNoCE.faqSearch none oraclesNoCE.llm "Khung năng lực số là gì?"
      false "" = .error () ∧
    safe_execute_faq oraclesNoCE "Khung năng lực số là gì?" =
      ⟨"ERROR", "", none, [], "RETRIEVER"⟩ ∧
    chatEndpoint true (workflowRun oraclesNoCE) ⟨"Khung năng lực số là gì?", []⟩ =
      .ok ⟨"Xin lỗi, hệ thống gặp sự cố.", [], "ERROR"⟩ ∧
    (graderProcess (some ceHigh) "câu hỏi" [docWithErrorText]).status = "SUFFICIENT" ∧
    ∃ d ∈ (graderProcess (some ceHigh) "câu hỏi" [docWithErrorText]).qualified_documents,
      d.rerank_score = none := by
  decide

/-! ## C3: the FAQ direct-answer policy -/

/-- C3 (amended).  The FAQ decision gates on the force-similarity floor
FIRST: when the top reranked candidate's similarity is at least 0.85 the
stored answer is emitted directly with SUCCESS (the `rerank ≥ 0.75` disjunct
is then subsumed); when it is below 0.85 the agent defers to the retriever
regardless of the fused rerank score — the rerank-direct path is NOT an
alternative sufficient condition. -/
theorem c3_direct_answer_needs_similarity (f : CE) (llm : Option LLM)
    (question : String) (faqs : List Faq) (best : RankedFaq) (tail : List RankedFaq)
    (hclean : faqsStrHasError faqs = false)
    (hr : rerank_faq (some f) question (faqs.filter faqVectorFilter) =
      .ok (best :: tail)) :
    faqProcess (.ok faqs) (some f) llm question false "" =
      .ok (if forceSimilarityThreshold ≤ best.similarity_score then
          ⟨"SUCCESS", best.answer, some "direct", [faqReference best], "end"⟩
        else routeToRetriever) := by
  have hne : faqs.isEmpty = false := by
    rcases faqs with _ | ⟨a, t⟩
    · rw [show rerank_faq (some f) question (List.filter faqVectorFilter []) = .ok []
        from rfl] at hr
      cases hr
    · rfl
  have hfil : (faqs.filter faqVectorFilter).isEmpty = false := by
    by_cases hf : (faqs.filter faqVectorFilter).isEmpty = true
    · rw [List.isEmpty_iff] at hf
      rw [hf] at hr
      rw [show rerank_faq (some f) question [] = .ok [] from rfl] at hr
      cases hr
    · simpa using hf
  unfold faqProcess
  dsimp only
  rw [if_neg (by simp [hne, hclean]), if_neg (by simp [hfil]), hr]
  dsimp only
  by_cases hss : forceSimilarityThreshold ≤ best.similarity_score
  · rw [if_neg (not_not.2 hss), if_pos (Or.inr hss), if_pos hss]
  · rw [if_pos hss, if_neg hss]

/-- Witness for C3 in the direct-answer case: `sampleFaq` has similarity
0.9 ≥ 0.85, so its stored answer is emitted with SUCCESS. -/
theorem c3_witness :
    faqProcess (.ok [sampleFaq]) (some ceConst) none "Khung năng lực số là gì?"
        false "" =
      .ok (if forceSimilarityThreshold ≤
          (⟨sampleFaq, mkRat 77 100, mkRat 7 10, mkRat 7 10, mkRat 7 10⟩ :
            RankedFaq).similarity_score then
          ⟨"SUCCESS", sampleFaq.answer, some "direct",
            [faqReference ⟨sampleFaq, mkRat 77 100, mkRat 7 10, mkRat 7 10, mkRat 7 10⟩],
            "end"⟩
        else routeToRetriever) :=
  c3_direct_answer_needs_similarity ceConst none "Khung năng lực số là gì?" [sampleFaq]
    ⟨sampleFaq, mkRat 77 100, mkRat 7 10, mkRat 7 10, mkRat 7 10⟩ [] (by decide)
    (by decide)

/-- C3 counterexample to the claim as stated: the top candidate's fused
rerank score 0.88 meets the direct-answer threshold 0.75, its similarity 0.6
is below the 0.85 floor, and the agent does NOT emit the stored answer with
SUCCESS — it defers to the retriever with NOT_FOUND. -/
theorem c3_counterexample :
    rerank_faq (some ceHigh) "q" ([faqMid].filter faqVectorFilter) =
      .ok [⟨faqMid, mkRat 22 25, mkRat 4 5, mkRat 4 5, mkRat 4 5⟩] ∧
    directAnswerThreshold ≤
      (⟨faqMid, mkRat 22 25, mkRat 4 5, mkRat 4 5, mkRat 4 5⟩ : RankedFaq).rerank_score ∧
    (⟨faqMid, mkRat 22 25, mkRat 4 5, mkRat 4 5, mkRat 4 5⟩ : RankedFaq).similarity_score <
      forceSimilarityThreshold ∧
    faqProcess (.ok [faqMid]) (some ceHigh) none "q" false "" = .ok routeToRetriever := by
  decide

/-! ## C7: follow-up rewrite fallbacks -/

/-- C7 (amended).  (a) If the rewriter raises (modelled `llm = none`), the
context processor returns the original question with `is_followup = false`.
(b) If the rewrite contains the `"[cần làm rõ]"` sentinel, the supervisor
falls back to the original question and marks non-follow-up.  (c) BUT if the
LLM returns an empty rewrite, the processor substitutes the rule-based
`_manual_contextualize` result and keeps `is_followup = true` — it does NOT
fall back to the original question (see the counterexample). -/
theorem c7_rewrite_fallbacks :
    (∀ (isFu : String → Bool) (mc : String → List Turn → String)
        (history : List Turn) (q : String),
      extract_context_from_history none isFu mc history q = ⟨q, q, false, ""⟩) ∧
    (∀ (dbC : Bool) (g : LLM) (isFu : String → Bool)
        (mc : String → List Turn → String) (parse : String → String × String)
        (q : String) (history : List Turn),
      hasSub (extract_context_from_history (some g) isFu mc
          history q).contextualized_question clarifySentinel = true →
      (classify_request dbC (some g) isFu mc parse q history).contextualized_question =
        q ∧
      (classify_request dbC (some g) isFu mc parse q history).is_followup = false) ∧
    (∀ (g : LLM) (isFu : String → Bool) (mc : String → List Turn → String)
        (history : List Turn) (q : String),
      history.isEmpty = false → isFu q = true →
      pyStrip (g (contextPrompt history q)) = "" →
      extract_context_from_history (some g) isFu mc history q =
        ⟨q, mc q history, true, extractRelevantContext history⟩) := by
  refine ⟨?_, ?_, ?_⟩
  · intro isFu mc history q
    unfold extract_context_from_history
    split
    · rfl
    · split
      · rfl
      · rfl
  · intro dbC g isFu mc parse q history h
    rw [classify_request]
    split
    · exact ⟨rfl, rfl⟩
    · dsimp only
      rw [if_pos h, if_pos h]
      exact ⟨rfl, rfl⟩
  · intro g isFu mc history q hne hfu hstrip
    unfold extract_context_from_history
    rw [if_neg (by simp [hne]), if_neg (by simp [hfu])]
    dsimp only
    rw [hstrip, if_pos (by decide)]

/-- Witness for C7: part (a) at a concrete history, part (b) at a rewriter
that emits the sentinel, part (c) at a rewriter that emits the empty string
(the follow-up detector returns true, as the source's short-query test does
on this two-word question). -/
theorem c7_witness :
    extract_context_from_history none (fun _ => true) (fun q _ => q)
        [⟨"user", "A"⟩] "chi tiết" =
      ⟨"chi tiết", "chi tiết", false, ""⟩ ∧
    (hasSub (extract_context_from_history (some fun _ => "[cần làm rõ]")
        (fun _ => true) (fun q _ => q)
        [⟨"user", "A"⟩] "chi tiết").contextualized_question clarifySentinel = true ∧
      (classify_request true (some fun _ => "[cần làm rõ]") (fun _ => true)
          (fun q _ => q) (fun _ => ("FAQ", "")) "chi tiết"
          [⟨"user", "A"⟩]).contextualized_question = "chi tiết" ∧
      (classify_request true (some fun _ => "[cần làm rõ]") (fun _ => true)
          (fun q _ => q) (fun _ => ("FAQ", "")) "chi tiết"
          [⟨"user", "A"⟩]).is_followup = false) ∧
    (([(⟨"user", "A"⟩ : Turn)] : List Turn).isEmpty = false ∧
      (fun (_ : String) => true) "chi tiết" = true ∧
      pyStrip ((fun _ => "") (contextPrompt [⟨"user", "A"⟩] "chi tiết")) = "" ∧
      extract_context_from_history (some fun _ => "") (fun _ => true)
          (fun q _ => q ++ " (bổ sung ngữ cảnh)") [⟨"user", "A"⟩] "chi tiết" =
        ⟨"chi tiết", "chi tiết" ++ " (bổ sung ngữ cảnh)", true,
          extractRelevantContext [⟨"user", "A"⟩]⟩) :=
  ⟨c7_rewrite_fallbacks.1 (fun _ => true) (fun q _ => q) [⟨"user", "A"⟩] "chi tiết",
    ⟨by decide,
      (c7_rewrite_fallbacks.2.1 true (fun _ => "[cần làm rõ]") (fun _ => true)
        (fun q _ => q) (fun _ => ("FAQ", "")) "chi tiết" [⟨"user", "A"⟩]
        (by decide)).1,
      (c7_rewrite_fallbacks.2.1 true (fun _ => "[cần làm rõ]") (fun _ => true)
        (fun q _ => q) (fun _ => ("FAQ", "")) "chi tiết" [⟨"user", "A"⟩]
        (by decide)).2⟩,
    ⟨rfl, rfl, by decide,
      c7_rewrite_fallbacks.2.2 (fun _ => "") (fun _ => true)
        (fun q _ => q ++ " (bổ sung ngữ cảnh)") [⟨"user", "A"⟩] "chi tiết"
        rfl rfl (by decide)⟩⟩

/-- C7 counterexample to the claim as stated: the rewriter returns the empty
string on a follow-up (the two-word question "chi tiết" is follow-up by the
source's short-query test), yet the result keeps `isFollowup = true` and its
contextualized question is the rule-based rewrite, not the original
question. -/
theorem c7_counterexample :
    (extract_context_from_history (some fun _ => "") (fun _ => true)
        (fun q _ => q ++ " (Liên quan đến: chủ đề trước)")
        [⟨"user", "Khung năng lực số có 6 nhóm"⟩, ⟨"assistant", "Đã trả lời"⟩]
        "chi tiết").is_followup = true ∧
    (extract_context_from_history (some fun _ => "") (fun _ => true)
        (fun q _ => q ++ " (Liên quan đến: chủ đề trước)")
        [⟨"user", "Khung năng lực số có 6 nhóm"⟩, ⟨"assistant", "Đã trả lời"⟩]
        "chi tiết").contextualized_question ≠ "chi tiết" := by
  decide

/-! ## C4: streaming chunk reconstruction -/

/-- Every word produced by the Python-style splitter is non-empty and free of
whitespace characters. -/
theorem wordsAux_words : ∀ (l acc : List Char),
    (∀ c ∈ acc, c.isWhitespace = false) →
    ∀ w ∈ wordsAux l acc, w ≠ [] ∧ ∀ c ∈ w, c.isWhitespace = false
  | [], acc, hacc => by
    rw [wordsAux]
    split
    · simp
    case isFalse hne =>
      intro w hw
      rw [List.mem_singleton] at hw
      subst hw
      refine ⟨?_, fun c hc => hacc c (List.mem_reverse.1 hc)⟩
      simp only [ne_eq, List.reverse_eq_nil_iff]
      simpa using hne
  | c :: cs, acc, hacc => by
    rw [wordsAux]
    split
    case isTrue hc =>
      split
      case isTrue hae => exact wordsAux_words cs [] (by simp)
      case isFalse hae =>
        intro w hw
        rcases List.mem_cons.1 hw with heq | hw2
        · subst heq
          refine ⟨?_, fun d hd => hacc d (List.mem_reverse.1 hd)⟩
          simp only [ne_eq, List.reverse_eq_nil_iff]
          simpa using hae
        · exact wordsAux_words cs [] (by simp) w hw2
    case isFalse hc =>
      refine wordsAux_words cs (c :: acc) ?_
      intro x hx
      rcases List.mem_cons.1 hx with heq | hx2
      · subst heq
        simpa using hc
      · exact hacc x hx2

theorem pySplitChars_words (l : List Char) :
    ∀ w ∈ pySplitChars l, w ≠ [] ∧ ∀ c ∈ w, c.isWhitespace = false :=
  wordsAux_words l [] (by simp)

theorem trailJoin_eq : ∀ ws : List (List Char), ws ≠ [] →
    trailJoin ws = interJoin ws ++ [' ']
  | [w], _ => rfl
  | w :: x :: xs, _ => by
    rw [trailJoin, interJoin, trailJoin_eq (x :: xs) (by simp)]
    simp

/-- Stripping a string that ends in exactly one trailing space and whose
first and last proper characters are not whitespace removes just that
space. -/
theorem stripChars_append_space (l : List Char) (hne : l ≠ [])
    (hhead : ∀ c, l.head? = some c → c.isWhitespace = false)
    (hlast : ∀ c, l.getLast? = some c → c.isWhitespace = false) :
    stripChars (l ++ [' ']) = l := by
  rcases l with _ | ⟨a, t⟩
  · exact absurd rfl hne
  · have ha : a.isWhitespace = false := hhead a rfl
    rw [stripChars, dropWS, List.cons_append,
      List.dropWhile_cons_of_neg (by simp [ha])]
    rw [show (a :: (t ++ [' '])).reverse = ' ' :: (a :: t).reverse from by simp]
    rw [List.dropWhile_cons_of_pos (by simp)]
    have hrev : (a :: t).reverse ≠ [] := by simp
    rcases hr : (a :: t).reverse with _ | ⟨b, rt⟩
    · exact absurd hr hrev
    · have hb : b.isWhitespace = false := by
        apply hlast
        rw [← List.head?_reverse, hr]
        rfl
      rw [List.dropWhile_cons_of_neg (by simp [hb]), ← hr, List.reverse_reverse]

theorem interJoin_ne_nil : ∀ ws : List (List Char), (∀ w ∈ ws, w ≠ []) →
    ws ≠ [] → interJoin ws ≠ []
  | [w], h, _ => h w (List.mem_singleton.2 rfl)
  | w :: x :: xs, _, _ => by
    rw [interJoin]
    rcases w with _ | ⟨c, cs⟩ <;> simp

theorem interJoin_head? : ∀ (ws : List (List Char)) (w : List Char),
    ws.head? = some w → w ≠ [] → (interJoin ws).head? = w.head?
  | [v], w, hw, hne => by
    have hw2 : v = w := by simpa using hw
    rw [show interJoin [v] = v from rfl, hw2]
  | v :: x :: xs, w, hw, hne => by
    have hw2 : v = w := by simpa using hw
    rw [interJoin, hw2]
    rcases w with _ | ⟨c, cs⟩
    · exact absurd rfl hne
    · rfl

theorem interJoin_getLast? : ∀ (ws : List (List Char)) (w : List Char),
    ws.getLast? = some w → (∀ v ∈ ws, v ≠ []) → (interJoin ws).getLast? = w.getLast?
  | [v], w, hw, hws => by
    have hw2 : v = w := by simpa using hw
    rw [show interJoin [v] = v from rfl, hw2]
  | v :: x :: xs, w, hw, hws => by
    have hxs : (x :: xs).getLast? = some w := by
      rw [← hw, List.getLast?_cons_cons]
    have hih := interJoin_getLast? (x :: xs) w hxs
      (fun u hu => hws u (List.mem_cons_of_mem _ hu))
    have hnil := interJoin_ne_nil (x :: xs)
      (fun u hu => hws u (List.mem_cons_of_mem _ hu)) (by simp)
    rcases hI : interJoin (x :: xs) with _ | ⟨c, cs⟩
    · exact absurd hI hnil
    · rw [hI] at hih
      rw [interJoin, hI, List.getLast?_append_cons, List.getLast?_cons_cons, hih]

theorem chunkGo_last (n : ℕ) : ∀ (ws : List (List Char)) (i : ℕ) (cur : List Char),
    ws ≠ [] → i + ws.length = n →
    chunkGo n i cur ws ≠ [] ∧
    (chunkGo n i cur ws).getLast? = some (stripChars (cur ++ trailJoin ws))
  | [], _, _, hne, _ => absurd rfl hne
  | [w], i, cur, _, hlen => by
    have hi : i = n - 1 := by
      simp at hlen
      omega
    rw [chunkGo, if_pos (Or.inr hi)]
    rw [show chunkGo n (i + 1) (cur ++ w ++ [' ']) [] = [] from rfl]
    refine ⟨by simp, ?_⟩
    rw [trailJoin]
    rw [show trailJoin [] = [] from rfl]
    simp [List.append_assoc]
  | w :: x :: xs, i, cur, _, hlen => by
    have hlen2 : (i + 1) + (x :: xs).length = n := by
      simp at hlen ⊢
      omega
    have hih := chunkGo_last n (x :: xs) (i + 1) (cur ++ w ++ [' ']) (by simp) hlen2
    have hshape : (cur ++ w ++ [' ']) ++ trailJoin (x :: xs) =
        cur ++ trailJoin (w :: x :: xs) := by
      rw [show trailJoin (w :: x :: xs) = w ++ ' ' :: trailJoin (x :: xs) from rfl]
      simp [List.append_assoc]
    rw [chunkGo]
    split
    · refine ⟨by simp, ?_⟩
      rcases hc : chunkGo n (i + 1) (cur ++ w ++ [' ']) (x :: xs) with _ | ⟨r0, rt⟩
      · exact absurd hc hih.1
      · rw [List.getLast?_cons_cons, ← hc, hih.2, hshape]
    · rw [hih.2, hshape]
      exact ⟨hih.1, rfl⟩

/-- The `content` events of the SSE stream are exactly the chunk-loop
outputs for the workflow's (non-streaming) answer. -/
theorem streamContents_eq (run : String → List Turn → RunResult) (question : String)
    (history : List Turn) :
    streamContents run question history = contentChunks (run question history).answer := by
  rw [streamContents, generate_stream_response]
  simp only [List.filterMap_append, List.filterMap_map, List.filterMap_cons]
  have hfun : ((fun e : SSEEvent => if e.typ = "content" then e.content else none) ∘
      fun c : String => (⟨"content", some c⟩ : SSEEvent)) = some := by
    funext c
    simp [Function.comp]
  rw [hfun, List.filterMap_some]
  simp

/-- C4 (amended).  Each `content` event of the streaming endpoint carries
the CUMULATIVE answer text so far (stripped), so concatenating them does not
reconstruct the answer (see the counterexample); instead, for every run
function, question and history whose answer has at least one word, the LAST
`content` event equals the whitespace-normalised non-streaming answer (its
`split()` words joined by single spaces).  Both endpoints invoke the same
`RAGWorkflow.run`, so they share the same underlying answer. -/
theorem c4_last_chunk_is_answer (run : String → List Turn → RunResult)
    (question : String) (history : List Turn)
    (hne : pySplitChars ((run question history).answer).data ≠ []) :
    (streamContents run question history).getLast? =
      some (normalizeWS (run question history).answer) := by
  rw [streamContents_eq, contentChunks]
  have hlen : (0 : ℕ) + (pySplitChars ((run question history).answer).data).length =
      (pySplitChars ((run question history).answer).data).length := by omega
  have hchunk := chunkGo_last
    (pySplitChars ((run question history).answer).data).length
    (pySplitChars ((run question history).answer).data) 0 [] hne hlen
  rw [List.getLast?_map, hchunk.2]
  have hwords := pySplitChars_words ((run question history).answer).data
  have hstrip : stripChars ([] ++ trailJoin
      (pySplitChars ((run question history).answer).data)) =
        interJoin (pySplitChars ((run question history).answer).data) := by
    rw [List.nil_append,
      trailJoin_eq (pySplitChars ((run question history).answer).data) hne]
    apply stripChars_append_space
    · exact interJoin_ne_nil _ (fun w hw => (hwords w hw).1) hne
    · intro c hc
      rcases hh : (pySplitChars ((run question history).answer).data).head? with _ | w0
      · rw [List.head?_eq_none_iff] at hh
        exact absurd hh hne
      · have hw0 := hwords w0 (List.mem_of_mem_head? hh)
        rw [interJoin_head? _ w0 hh hw0.1] at hc
        exact hw0.2 c (List.mem_of_mem_head? hc)
    · intro c hc
      rcases hh : (pySplitChars ((run question history).answer).data).getLast? with _ | w0
      · rw [List.getLast?_eq_head?_reverse, List.head?_eq_none_iff,
          List.reverse_eq_nil_iff] at hh
        exact absurd hh hne
      · have hw0 := hwords w0 (List.mem_of_mem_getLast? hh)
        rw [interJoin_getLast? _ w0 hh (fun v hv => (hwords v hv).1)] at hc
        exact hw0.2 c (List.mem_of_mem_getLast? hc)
  rw [hstrip]
  rfl

/-- Witness for C4: in the healthy environment the last `content` event is
the whitespace-normalised FAQ answer. -/
theorem c4_witness :
    pySplitChars ((workflowRun oraclesHappy "Khung năng lực số là gì?" []).answer).data ≠
      [] ∧
    (streamContents (workflowRun oraclesHappy) "Khung năng lực số là gì?" []).getLast? =
      some (normalizeWS (workflowRun oraclesHappy "Khung năng lực số là gì?" []).answer) :=
  ⟨by decide,
    c4_last_chunk_is_answer (workflowRun oraclesHappy) "Khung năng lực số là gì?" []
      (by decide)⟩

/-- C4 counterexample to the claim as stated: for the healthy environment
the non-streaming answer has seven words, the stream emits cumulative
chunks, and concatenating the `content` events does not reconstruct the
answer — not even up to trailing whitespace. -/
theorem c4_counterexample :
    String.join (streamContents (workflowRun oraclesHappy)
        "Khung năng lực số là gì?" []) ≠
      (workflowRun oraclesHappy "Khung năng lực số là gì?" []).answer ∧
    pyStrip (String.join (streamContents (workflowRun oraclesHappy)
        "Khung năng lực số là gì?" [])) ≠
      pyStrip ((workflowRun oraclesHappy "Khung năng lực số là gì?" []).answer) := by
  decide

end VTC
